import Mathlib

/-!
# ENS160 gas-sensor driver: embedding of `ENS160.c` / `ens160.h`, and of `getCO2Level` of `main.c`

The driver talks to the sensor through one caller-supplied function
`int (*ens160_spi_transfer_t)(uint8_t *tx_data, uint8_t *rx_data, uint32_t len)`.
That function is arbitrary code with its own side effects, so it is embedded as a
state transformer over an arbitrary state type `σ` (everything that lives behind
the bus): given the bytes of `tx_data` and `len` it yields the returned `int`
and the bytes it left in `rx_data`, together with the next state.

Bytes are natural numbers; a store into a `uint8_t` is written `% 256` and a
conversion to `uint16_t` is written `% 65536` wherever the stored expression is
computed by arithmetic.  Expressions are evaluated as C does, after promotion to
`int`, so `<<`, `|` and `&` are the operations of `Nat`.
-/

namespace ENS160

/-! ## `ens160.h` -/

def ENS160_PART_ID : Nat := 0x00
def ENS160_OPMODE : Nat := 0x10
def ENS160_CONFIG : Nat := 0x11
def ENS160_COMMAND : Nat := 0x12
def ENS160_TEMP_IN : Nat := 0x13
def ENS160_RH_IN : Nat := 0x15
def ENS160_DEVICE_STATUS : Nat := 0x20
def ENS160_DATA_AQI : Nat := 0x21
def ENS160_DATA_TVOC : Nat := 0x22
def ENS160_DATA_ECO2 : Nat := 0x24

def ENS160_OPMODE_DEEPSLEEP : Nat := 0x00
def ENS160_OPMODE_IDLE : Nat := 0x01
def ENS160_OPMODE_STANDARD : Nat := 0x02
def ENS160_OPMODE_RESET : Nat := 0xF0

def ENS160_STATUS_STATER : Nat := 0x40
def ENS160_STATUS_NEWDAT : Nat := 0x02
def ENS160_STATUS_NEWGPR : Nat := 0x01

/-- The enum `ENS160_Result`. -/
inductive ENS160_Result where
  | ENS160_OK
  | ENS160_ERROR
  | ENS160_NOT_READY
  | ENS160_INVALID_PARAM
  deriving DecidableEq, Repr

open ENS160_Result

/-- What one call of the transport leaves behind: the returned `int` and the
contents of `rx_data` after the call. -/
structure SpiXfer where
  ret : Int
  rx : List Nat
  deriving DecidableEq, Repr

/-- The function-pointer type `ens160_spi_transfer_t`: from the state behind the
bus, the transmit buffer and the byte count to the outcome and the next state. -/
abbrev ens160_spi_transfer_t (σ : Type) := σ → List Nat → Nat → SpiXfer × σ

/-- The state the driver runs in.  `spi_transfer` is the file-scope pointer of
`ENS160.c` (`none` is `NULL`); `bus` is the state behind the transport; `trace`
is a ghost record of every call made through the pointer, oldest first, each
entry being the transmit buffer and the byte count passed. -/
structure Driver (σ : Type) where
  spi_transfer : Option (ens160_spi_transfer_t σ)
  bus : σ
  trace : List (List Nat × Nat)

variable {σ : Type}

/-- The call `spi_transfer(tx_buffer, rx_buffer, n)` through the pointer value `f`:
runs the transport on the bus state and appends the call to the ghost trace. -/
def Driver.call (w : Driver σ) (f : ens160_spi_transfer_t σ) (tx_buffer : List Nat) (n : Nat) :
    SpiXfer × Driver σ :=
  ((f w.bus tx_buffer n).1,
    { w with bus := (f w.bus tx_buffer n).2, trace := w.trace ++ [(tx_buffer, n)] })

/-! ## `ENS160.c` -/

/-- The function `ens160_begin`. -/
def ens160_begin (w : Driver σ) (transfer_func : Option (ens160_spi_transfer_t σ)) :
    ENS160_Result × Driver σ :=
  match transfer_func with
  | none => (ENS160_INVALID_PARAM, w)
  | some f => (ENS160_OK, { w with spi_transfer := some f })

/-- The function `ens160_read_register`; the second component is what was copied
into `data[0 .. len-1]` (nothing is copied on the two error returns). -/
def ens160_read_register (w : Driver σ) (reg_addr len : Nat) :
    ENS160_Result × List Nat × Driver σ :=
  match w.spi_transfer with
  | none => (ENS160_ERROR, [], w)
  | some f =>
    let tx_buffer := ((reg_addr <<< 1) ||| 0x01) % 256 :: List.replicate len 0x00
    let x := w.call f tx_buffer (len + 1)
    if x.1.ret ≠ 0 then (ENS160_ERROR, [], x.2)
    else (ENS160_OK, (List.range len).map (fun i => x.1.rx.getD (i + 1) 0), x.2)

/-- The function `ens160_write_register`. -/
def ens160_write_register (w : Driver σ) (reg_addr : Nat) (data : List Nat) (len : Nat) :
    ENS160_Result × Driver σ :=
  match w.spi_transfer with
  | none => (ENS160_ERROR, w)
  | some f =>
    let tx_buffer :=
      ((reg_addr <<< 1) &&& 0xFE) % 256 :: (List.range len).map (fun i => data.getD i 0)
    let x := w.call f tx_buffer (len + 1)
    if x.1.ret ≠ 0 then (ENS160_ERROR, x.2) else (ENS160_OK, x.2)

/-- The function `ens160_set_mode`. -/
def ens160_set_mode (w : Driver σ) (mode : Nat) : ENS160_Result × Driver σ :=
  ens160_write_register w ENS160_OPMODE [mode] 1

/-- The `for (int i = 0; i < 100; i++)` loop of `ens160_reset`, by recursion on the
number of iterations still to run (`100 - i`).  The inner `volatile` counting
loop touches neither the transport nor the result. -/
def ens160_reset_poll : Nat → Driver σ → ENS160_Result × Driver σ
  | 0, w => (ENS160_ERROR, w)
  | n + 1, w =>
    let r := ens160_read_register w ENS160_DEVICE_STATUS 1
    if r.1 = ENS160_OK then
      if (r.2.1.getD 0 0) &&& ENS160_STATUS_STATER = 0 then (ENS160_OK, r.2.2)
      else ens160_reset_poll n r.2.2
    else ens160_reset_poll n r.2.2

/-- The function `ens160_reset`. -/
def ens160_reset (w : Driver σ) : ENS160_Result × Driver σ :=
  let reset_cmd := ENS160_OPMODE_RESET
  let r := ens160_write_register w ENS160_OPMODE [reset_cmd] 1
  if r.1 ≠ ENS160_OK then (ENS160_ERROR, r.2)
  else ens160_reset_poll 100 r.2

/-- The function `ens160_init`. -/
def ens160_init (w : Driver σ) : Bool × Driver σ :=
  let r := ens160_read_register w ENS160_PART_ID 2
  if r.1 ≠ ENS160_OK then (false, r.2.2)
  else
    let part_id := r.2.1
    let id := (((part_id.getD 1 0) <<< 8) ||| (part_id.getD 0 0)) % 65536
    if id ≠ 0x0160 then (false, r.2.2)
    else
      let r1 := ens160_reset r.2.2
      if r1.1 ≠ ENS160_OK then (false, r1.2)
      else
        let r2 := ens160_set_mode r1.2 ENS160_OPMODE_IDLE
        if r2.1 ≠ ENS160_OK then (false, r2.2) else (true, r2.2)

/-- The function `ens160_write_compensation`. -/
def ens160_write_compensation (w : Driver σ) (temp rh : Nat) : ENS160_Result × Driver σ :=
  let temp_data := [(temp &&& 0xFF) % 256, ((temp >>> 8) &&& 0xFF) % 256]
  let rh_data := [(rh &&& 0xFF) % 256, ((rh >>> 8) &&& 0xFF) % 256]
  let r := ens160_write_register w ENS160_TEMP_IN temp_data 2
  if r.1 ≠ ENS160_OK then (ENS160_ERROR, r.2)
  else
    let r1 := ens160_write_register r.2 ENS160_RH_IN rh_data 2
    if r1.1 ≠ ENS160_OK then (ENS160_ERROR, r1.2) else (ENS160_OK, r1.2)

/-- The function `ens160_start_standard_measure`. -/
def ens160_start_standard_measure (w : Driver σ) : ENS160_Result × Driver σ :=
  ens160_set_mode w ENS160_OPMODE_STANDARD

/-- The function `ens160_update`. -/
def ens160_update (w : Driver σ) : ENS160_Result × Driver σ :=
  let r := ens160_read_register w ENS160_DEVICE_STATUS 1
  if r.1 ≠ ENS160_OK then (ENS160_ERROR, r.2.2)
  else if (r.2.1.getD 0 0) &&& ENS160_STATUS_STATER ≠ 0 then (ENS160_ERROR, r.2.2)
  else (ENS160_OK, r.2.2)

/-- The function `ens160_has_new_data`. -/
def ens160_has_new_data (w : Driver σ) : Bool × Driver σ :=
  let r := ens160_read_register w ENS160_DEVICE_STATUS 1
  if r.1 ≠ ENS160_OK then (false, r.2.2)
  else (decide ((r.2.1.getD 0 0) &&& ENS160_STATUS_NEWDAT ≠ 0), r.2.2)

/-- The function `ens160_get_air_quality_index`. -/
def ens160_get_air_quality_index (w : Driver σ) : Nat × Driver σ :=
  let r := ens160_read_register w ENS160_DATA_AQI 1
  if r.1 ≠ ENS160_OK then (0, r.2.2)
  else (((r.2.1.getD 0 0) &&& 0x07) % 256, r.2.2)

/-- The function `ens160_get_tvoc`. -/
def ens160_get_tvoc (w : Driver σ) : Nat × Driver σ :=
  let r := ens160_read_register w ENS160_DATA_TVOC 2
  if r.1 ≠ ENS160_OK then (0, r.2.2)
  else ((((r.2.1.getD 1 0) <<< 8) ||| (r.2.1.getD 0 0)) % 65536, r.2.2)

/-- The function `ens160_get_eco2`. -/
def ens160_get_eco2 (w : Driver σ) : Nat × Driver σ :=
  let r := ens160_read_register w ENS160_DATA_ECO2 2
  if r.1 ≠ ENS160_OK then (0, r.2.2)
  else ((((r.2.1.getD 1 0) <<< 8) ||| (r.2.1.getD 0 0)) % 65536, r.2.2)

/-- The function `ens160_get_status`. -/
def ens160_get_status (w : Driver σ) : Nat × Driver σ :=
  let r := ens160_read_register w ENS160_DEVICE_STATUS 1
  if r.1 ≠ ENS160_OK then (0, r.2.2)
  else (r.2.1.getD 0 0, r.2.2)

/-! ## `main.c` -/

def CO2_EXCELLENT : Nat := 600
def CO2_GOOD : Nat := 800
def CO2_MODERATE : Nat := 1000
def CO2_BAD : Nat := 1500

/-- The enum `CO2_Level`. -/
inductive CO2_Level where
  | EXCELLENT
  | GOOD
  | MODERATE
  | BAD
  | TERRIBLE
  deriving DecidableEq, Repr

/-- The integer value C gives each enumerator of `CO2_Level`, in declaration order. -/
def CO2_Level.val : CO2_Level → Nat
  | .EXCELLENT => 0
  | .GOOD => 1
  | .MODERATE => 2
  | .BAD => 3
  | .TERRIBLE => 4

/-- The function `getCO2Level`. -/
def getCO2Level (eco2 : Nat) : CO2_Level :=
  if eco2 ≤ CO2_EXCELLENT then CO2_Level.EXCELLENT
  else if eco2 ≤ CO2_GOOD then CO2_Level.GOOD
  else if eco2 ≤ CO2_MODERATE then CO2_Level.MODERATE
  else if eco2 ≤ CO2_BAD then CO2_Level.BAD
  else CO2_Level.TERRIBLE

/-! ## Vocabulary of the statements and simulated transports -/

/-- The header byte of a read frame, as `tx_buffer[0]` is computed in
`ens160_read_register`, followed by `len` filler bytes. -/
def read_frame (reg_addr len : Nat) : List Nat :=
  ((reg_addr <<< 1) ||| 0x01) % 256 :: List.replicate len 0x00

/-- The bus state after `i` consecutive calls of `f` on the same buffer. -/
def after_calls (f : ens160_spi_transfer_t σ) (tx : List Nat) (n : Nat) : Nat → σ → σ
  | 0, s => s
  | i + 1, s => after_calls f tx n i (f s tx n).2

/-- What the transport answers to the `i`-th (counting from 0) of a run of status
polls `[0x41, 0x00]` that starts in bus state `s`. -/
def nth_poll (f : ens160_spi_transfer_t σ) (s : σ) (i : Nat) : SpiXfer :=
  (f (after_calls f [0x41, 0x00] 2 i s) [0x41, 0x00] 2).1

/-- A status poll that succeeded and delivered a status byte (response byte 1)
with the device-error bit set. -/
def error_bit_set (x : SpiXfer) : Prop :=
  x.ret = 0 ∧ 2 ≤ x.rx.length ∧ x.rx.getD 1 0 &&& ENS160_STATUS_STATER ≠ 0

/-- A status poll that succeeded and delivered a status byte (response byte 1)
with the device-error bit clear. -/
def error_bit_clear (x : SpiXfer) : Prop :=
  x.ret = 0 ∧ 2 ≤ x.rx.length ∧ x.rx.getD 1 0 &&& ENS160_STATUS_STATER = 0

instance : DecidablePred error_bit_set := fun x => by
  unfold error_bit_set; infer_instance

instance : DecidablePred error_bit_clear := fun x => by
  unfold error_bit_clear; infer_instance

/-- The test the loop of `ens160_reset` applies to one poll: the read returned
`ENS160_OK` and `status & ENS160_STATUS_STATER` is zero. -/
def poll_passes (x : SpiXfer) : Prop :=
  x.ret = 0 ∧ x.rx.getD 1 0 &&& ENS160_STATUS_STATER = 0

/-- A transport without state that answers every call with the same outcome. -/
def constant_transport (x : SpiXfer) : ens160_spi_transfer_t Unit :=
  fun s _ _ => (x, s)

/-- A simulated sensor whose state counts the calls made so far.  Every call
succeeds; the status byte it returns has the error bit set for the calls
numbered `1 .. K` (call `0` being the first) and is clear from call `K + 1` on. -/
def busy_sensor (K : Nat) : ens160_spi_transfer_t Nat :=
  fun s _ _ => (⟨0, [0x00, if 1 ≤ s ∧ s ≤ K then 0x40 else 0x00]⟩, s + 1)

/-- A simulated sensor in working order: it accepts every frame, answers the
identity read (header `0x01`) with the part id `0x0160`, low byte first, and
every other frame with zero bytes. -/
def healthy_sensor : ens160_spi_transfer_t Unit :=
  fun s tx n =>
    (⟨0, match tx with
        | 0x01 :: _ => [0x00, 0x60, 0x01]
        | _ => List.replicate n 0x00⟩, s)

/-- A transport whose state counts the calls made so far: the first `n` exchanges
succeed and every later one fails with code `-1`. -/
def flaky_bus (n : Nat) : ens160_spi_transfer_t Nat :=
  fun s _ len => (⟨if s < n then 0 else -1, List.replicate len 0x00⟩, s + 1)

/-- A transport on which every exchange fails with code `-1`. -/
def dead_bus : ens160_spi_transfer_t Unit :=
  fun s _ n => (⟨-1, List.replicate n 0x00⟩, s)

/-- The frame that carries the temperature input: write header of register `0x13`,
then the low and the high byte of `temp`. -/
def temp_frame (temp : Nat) : List Nat := [0x13 <<< 1, temp % 256, temp / 256 % 256]

/-- The frame that carries the humidity input: write header of register `0x15`,
then the low and the high byte of `rh`. -/
def rh_frame (rh : Nat) : List Nat := [0x15 <<< 1, rh % 256, rh / 256 % 256]

/-! ## Unfolding lemmas -/

theorem read_register_bound (w : Driver σ) (f : ens160_spi_transfer_t σ)
    (hb : w.spi_transfer = some f) (reg_addr len : Nat) :
    ens160_read_register w reg_addr len =
      if (f w.bus (read_frame reg_addr len) (len + 1)).1.ret ≠ 0 then
        (ENS160_ERROR, [],
          { w with bus := (f w.bus (read_frame reg_addr len) (len + 1)).2,
                   trace := w.trace ++ [(read_frame reg_addr len, len + 1)] })
      else
        (ENS160_OK,
          (List.range len).map
            (fun i => (f w.bus (read_frame reg_addr len) (len + 1)).1.rx.getD (i + 1) 0),
          { w with bus := (f w.bus (read_frame reg_addr len) (len + 1)).2,
                   trace := w.trace ++ [(read_frame reg_addr len, len + 1)] }) := by
  simp only [ens160_read_register, hb, Driver.call, read_frame]

theorem write_register_bound (w : Driver σ) (f : ens160_spi_transfer_t σ)
    (hb : w.spi_transfer = some f) (reg_addr : Nat) (data : List Nat) (len : Nat) :
    ens160_write_register w reg_addr data len =
      (if (f w.bus (((reg_addr <<< 1) &&& 0xFE) % 256 ::
              (List.range len).map (fun i => data.getD i 0)) (len + 1)).1.ret ≠ 0
        then ENS160_ERROR else ENS160_OK,
        { w with
          bus := (f w.bus (((reg_addr <<< 1) &&& 0xFE) % 256 ::
              (List.range len).map (fun i => data.getD i 0)) (len + 1)).2,
          trace := w.trace ++ [(((reg_addr <<< 1) &&& 0xFE) % 256 ::
              (List.range len).map (fun i => data.getD i 0), len + 1)] }) := by
  simp only [ens160_write_register, hb, Driver.call]
  split <;> rfl

theorem range_map_getD_cons (S : Nat) (payload : List Nat) :
    (List.range payload.length).map (fun i => (S :: payload).getD (i + 1) 0) = payload := by
  apply List.ext_getElem
  · simp
  · intro i h1 h2
    simp at h1
    simp [List.getD_eq_getElem?_getD, List.getElem?_eq_getElem h1]

theorem read_register_ok (w : Driver σ) (f : ens160_spi_transfer_t σ)
    (hb : w.spi_transfer = some f) (reg_addr len : Nat)
    (hret : (f w.bus (read_frame reg_addr len) (len + 1)).1.ret = 0) :
    ens160_read_register w reg_addr len =
      (ENS160_OK,
        (List.range len).map
          (fun i => (f w.bus (read_frame reg_addr len) (len + 1)).1.rx.getD (i + 1) 0),
        { w with bus := (f w.bus (read_frame reg_addr len) (len + 1)).2,
                 trace := w.trace ++ [(read_frame reg_addr len, len + 1)] }) := by
  rw [read_register_bound w f hb, if_neg (by simpa using hret)]

theorem read_register_fail (w : Driver σ) (f : ens160_spi_transfer_t σ)
    (hb : w.spi_transfer = some f) (reg_addr len : Nat)
    (hret : (f w.bus (read_frame reg_addr len) (len + 1)).1.ret ≠ 0) :
    ens160_read_register w reg_addr len =
      (ENS160_ERROR, [],
        { w with bus := (f w.bus (read_frame reg_addr len) (len + 1)).2,
                 trace := w.trace ++ [(read_frame reg_addr len, len + 1)] }) := by
  rw [read_register_bound w f hb, if_pos hret]

theorem getD_of_getElem? (rx : List Nat) (i r : Nat) (h : rx[i]? = some r) : rx.getD i 0 = r := by
  simp [List.getD_eq_getElem?_getD, h]

theorem header_bits :
    ∀ a, a < 128 →
      (((a <<< 1) &&& 0xFE) % 256) &&& 1 = 0 ∧ (((a <<< 1) &&& 0xFE) % 256) >>> 1 = a ∧
      (((a <<< 1) ||| 0x01) % 256) &&& 1 = 1 ∧ (((a <<< 1) ||| 0x01) % 256) >>> 1 = a := by
  decide

theorem le16_decode (lo hi : Nat) (hlo : lo < 256) (hhi : hi < 256) :
    ((hi <<< 8) ||| lo) % 65536 = lo + 256 * hi := by
  have h := Nat.mul_add_lt_is_or (i := 8) (b := lo) (by simpa using hlo) hi
  rw [Nat.shiftLeft_eq, Nat.mul_comm hi, ← h]
  omega

theorem status_frame : read_frame ENS160_DEVICE_STATUS 1 = [0x41, 0x00] := by decide

theorem read_status_ok (w : Driver σ) (f : ens160_spi_transfer_t σ)
    (hb : w.spi_transfer = some f) (hret : (f w.bus [0x41, 0x00] 2).1.ret = 0) :
    ens160_read_register w ENS160_DEVICE_STATUS 1 =
      (ENS160_OK, [(f w.bus [0x41, 0x00] 2).1.rx.getD 1 0],
        { w with bus := (f w.bus [0x41, 0x00] 2).2, trace := w.trace ++ [([0x41, 0x00], 2)] }) := by
  have hr := read_register_ok w f hb ENS160_DEVICE_STATUS 1 (by rw [status_frame]; exact hret)
  rw [status_frame] at hr
  exact hr

theorem read_status_fail (w : Driver σ) (f : ens160_spi_transfer_t σ)
    (hb : w.spi_transfer = some f) (hret : (f w.bus [0x41, 0x00] 2).1.ret ≠ 0) :
    ens160_read_register w ENS160_DEVICE_STATUS 1 =
      (ENS160_ERROR, [],
        { w with bus := (f w.bus [0x41, 0x00] 2).2, trace := w.trace ++ [([0x41, 0x00], 2)] }) := by
  have hr := read_register_fail w f hb ENS160_DEVICE_STATUS 1 (by rw [status_frame]; exact hret)
  rw [status_frame] at hr
  exact hr

theorem reset_poll_step_done (n : Nat) (w : Driver σ) (f : ens160_spi_transfer_t σ)
    (hb : w.spi_transfer = some f) (h : poll_passes (f w.bus [0x41, 0x00] 2).1) :
    ens160_reset_poll (n + 1) w =
      (ENS160_OK, { w with bus := (f w.bus [0x41, 0x00] 2).2,
                           trace := w.trace ++ [([0x41, 0x00], 2)] }) := by
  simp only [ens160_reset_poll, read_status_ok w f hb h.1, List.getD_cons_zero]
  rw [if_pos trivial, if_pos h.2]

theorem reset_poll_step_retry (n : Nat) (w : Driver σ) (f : ens160_spi_transfer_t σ)
    (hb : w.spi_transfer = some f) (h : ¬ poll_passes (f w.bus [0x41, 0x00] 2).1) :
    ens160_reset_poll (n + 1) w =
      ens160_reset_poll n { w with bus := (f w.bus [0x41, 0x00] 2).2,
                                   trace := w.trace ++ [([0x41, 0x00], 2)] } := by
  by_cases hret : (f w.bus [0x41, 0x00] 2).1.ret = 0
  · simp only [ens160_reset_poll, read_status_ok w f hb hret, List.getD_cons_zero]
    rw [if_pos trivial, if_neg (fun hc => h ⟨hret, hc⟩)]
  · simp only [ens160_reset_poll, read_status_fail w f hb hret]
    rw [if_neg (by decide)]

theorem reset_poll_succeeds (f : ens160_spi_transfer_t σ) :
    ∀ (K n : Nat) (w : Driver σ), w.spi_transfer = some f → K < n →
      (∀ i, i < K → ¬ poll_passes (nth_poll f w.bus i)) → poll_passes (nth_poll f w.bus K) →
      ens160_reset_poll n w =
        (ENS160_OK, { w with bus := after_calls f [0x41, 0x00] 2 (K + 1) w.bus,
                             trace := w.trace ++ List.replicate (K + 1) ([0x41, 0x00], 2) }) := by
  intro K
  induction K with
  | zero =>
    intro n w hb hn _ hK
    obtain ⟨m, rfl⟩ : ∃ m, n = m + 1 := ⟨n - 1, by omega⟩
    rw [reset_poll_step_done m w f hb hK]
    rfl
  | succ K ih =>
    intro n w hb hn hlt hK
    obtain ⟨m, rfl⟩ : ∃ m, n = m + 1 := ⟨n - 1, by omega⟩
    rw [reset_poll_step_retry m w f hb (hlt 0 (by omega))]
    have h := ih m { w with bus := (f w.bus [0x41, 0x00] 2).2,
                            trace := w.trace ++ [([0x41, 0x00], 2)] } hb (by omega)
      (fun i hi => hlt (i + 1) (by omega)) hK
    rw [h]
    simp [after_calls, List.replicate_succ]

theorem reset_poll_exhausts (f : ens160_spi_transfer_t σ) :
    ∀ (n : Nat) (w : Driver σ), w.spi_transfer = some f →
      (∀ i, i < n → ¬ poll_passes (nth_poll f w.bus i)) →
      ens160_reset_poll n w =
        (ENS160_ERROR, { w with bus := after_calls f [0x41, 0x00] 2 n w.bus,
                                trace := w.trace ++ List.replicate n ([0x41, 0x00], 2) }) := by
  intro n
  induction n with
  | zero =>
    intro w _ _
    simp [ens160_reset_poll, after_calls]
  | succ n ih =>
    intro w hb hlt
    rw [reset_poll_step_retry n w f hb (hlt 0 (by omega))]
    have h := ih { w with bus := (f w.bus [0x41, 0x00] 2).2,
                          trace := w.trace ++ [([0x41, 0x00], 2)] } hb
      (fun i hi => hlt (i + 1) (by omega))
    rw [h]
    simp [after_calls, List.replicate_succ]

theorem reset_after_mode_write (w : Driver σ) (f : ens160_spi_transfer_t σ)
    (hb : w.spi_transfer = some f) (hw : (f w.bus [0x20, 0xF0] 2).1.ret = 0) :
    ens160_reset w =
      ens160_reset_poll 100 { w with bus := (f w.bus [0x20, 0xF0] 2).2,
                                     trace := w.trace ++ [([0x20, 0xF0], 2)] } := by
  have h := write_register_bound w f hb ENS160_OPMODE [ENS160_OPMODE_RESET] 1
  have hfr : ((ENS160_OPMODE <<< 1) &&& 0xFE) % 256 ::
      (List.range 1).map (fun i => [ENS160_OPMODE_RESET].getD i 0) = [0x20, 0xF0] := by decide
  rw [hfr] at h
  simp only [ens160_reset, h]
  simp [hw]

theorem reset_mode_write_fails (w : Driver σ) (f : ens160_spi_transfer_t σ)
    (hb : w.spi_transfer = some f) (hw : (f w.bus [0x20, 0xF0] 2).1.ret ≠ 0) :
    ens160_reset w =
      (ENS160_ERROR, { w with bus := (f w.bus [0x20, 0xF0] 2).2,
                              trace := w.trace ++ [([0x20, 0xF0], 2)] }) := by
  have h := write_register_bound w f hb ENS160_OPMODE [ENS160_OPMODE_RESET] 1
  have hfr : ((ENS160_OPMODE <<< 1) &&& 0xFE) % 256 ::
      (List.range 1).map (fun i => [ENS160_OPMODE_RESET].getD i 0) = [0x20, 0xF0] := by decide
  rw [hfr] at h
  simp only [ens160_reset, h]
  simp [hw]

theorem reset_poll_trace (f : ens160_spi_transfer_t σ) :
    ∀ (n : Nat) (w : Driver σ), w.spi_transfer = some f →
      ∃ k, k ≤ n ∧ ((ens160_reset_poll n w).1 = ENS160_OK → 1 ≤ k) ∧
        (ens160_reset_poll n w).2.trace = w.trace ++ List.replicate k ([0x41, 0x00], 2) := by
  intro n
  induction n with
  | zero =>
    intro w _
    exact ⟨0, Nat.le_refl 0, by simp [ens160_reset_poll], by simp [ens160_reset_poll]⟩
  | succ n ih =>
    intro w hb
    by_cases hp : poll_passes (f w.bus [0x41, 0x00] 2).1
    · rw [reset_poll_step_done n w f hb hp]
      exact ⟨1, by omega, fun _ => Nat.le_refl 1, rfl⟩
    · rw [reset_poll_step_retry n w f hb hp]
      obtain ⟨k, hk, _, htr⟩ := ih { w with bus := (f w.bus [0x41, 0x00] 2).2,
                                            trace := w.trace ++ [([0x41, 0x00], 2)] } hb
      refine ⟨k + 1, by omega, fun _ => by omega, ?_⟩
      rw [htr]
      simp [List.replicate_succ]

theorem error_bit_set_not_passes (x : SpiXfer) (h : error_bit_set x) : ¬ poll_passes x :=
  fun hp => h.2.2 hp.2

theorem range_two_map (rx : List Nat) :
    (List.range 2).map (fun i => rx.getD (i + 1) 0) = [rx.getD 1 0, rx.getD 2 0] := by
  simp [List.range_succ]

theorem range_one_map (rx : List Nat) :
    (List.range 1).map (fun i => rx.getD (i + 1) 0) = [rx.getD 1 0] := by
  simp [List.range_succ]

theorem read_two_ok (w : Driver σ) (f : ens160_spi_transfer_t σ) (reg_addr lo hi : Nat)
    (hb : w.spi_transfer = some f)
    (hret : (f w.bus (read_frame reg_addr 2) 3).1.ret = 0)
    (h1 : (f w.bus (read_frame reg_addr 2) 3).1.rx[1]? = some lo)
    (h2 : (f w.bus (read_frame reg_addr 2) 3).1.rx[2]? = some hi) :
    ens160_read_register w reg_addr 2 =
      (ENS160_OK, [lo, hi],
        { w with bus := (f w.bus (read_frame reg_addr 2) 3).2,
                 trace := w.trace ++ [(read_frame reg_addr 2, 3)] }) := by
  rw [read_register_ok w f hb reg_addr 2 hret, range_two_map,
    getD_of_getElem? _ _ _ h1, getD_of_getElem? _ _ _ h2]

theorem read_one_ok (w : Driver σ) (f : ens160_spi_transfer_t σ) (reg_addr r : Nat)
    (hb : w.spi_transfer = some f)
    (hret : (f w.bus (read_frame reg_addr 1) 2).1.ret = 0)
    (h1 : (f w.bus (read_frame reg_addr 1) 2).1.rx[1]? = some r) :
    ens160_read_register w reg_addr 1 =
      (ENS160_OK, [r],
        { w with bus := (f w.bus (read_frame reg_addr 1) 2).2,
                 trace := w.trace ++ [(read_frame reg_addr 1, 2)] }) := by
  rw [read_register_ok w f hb reg_addr 1 hret, range_one_map, getD_of_getElem? _ _ _ h1]

theorem read_register_all_fail (w : Driver σ) (f : ens160_spi_transfer_t σ)
    (hb : w.spi_transfer = some f) (hfail : ∀ s tx n, (f s tx n).1.ret ≠ 0)
    (reg_addr len : Nat) :
    (ens160_read_register w reg_addr len).1 = ENS160_ERROR := by
  rw [read_register_fail w f hb reg_addr len (hfail _ _ _)]

theorem low_byte (t : Nat) : (t &&& 0xFF) % 256 = t % 256 := by
  have h : t &&& 0xFF = t % 256 := Nat.and_pow_two_sub_one_eq_mod t 8
  rw [h, Nat.mod_mod]

theorem high_byte (t : Nat) : ((t >>> 8) &&& 0xFF) % 256 = t / 256 % 256 := by
  rw [low_byte, Nat.shiftRight_eq_div_pow]

theorem range_two_getD (a b : Nat) :
    (List.range 2).map (fun i => [a, b].getD i 0) = [a, b] := by
  simp [List.range_succ]

theorem write_compensation_bound (w : Driver σ) (f : ens160_spi_transfer_t σ)
    (hb : w.spi_transfer = some f) (temp rh : Nat) :
    ens160_write_compensation w temp rh =
      if (f w.bus (temp_frame temp) 3).1.ret ≠ 0 then
        (ENS160_ERROR,
          { w with bus := (f w.bus (temp_frame temp) 3).2,
                   trace := w.trace ++ [(temp_frame temp, 3)] })
      else
        (if (f (f w.bus (temp_frame temp) 3).2 (rh_frame rh) 3).1.ret ≠ 0
          then ENS160_ERROR else ENS160_OK,
          { w with bus := (f (f w.bus (temp_frame temp) 3).2 (rh_frame rh) 3).2,
                   trace := w.trace ++ [(temp_frame temp, 3), (rh_frame rh, 3)] }) := by
  have ht : ((ENS160_TEMP_IN <<< 1) &&& 0xFE) % 256 ::
      (List.range 2).map
        (fun i => [(temp &&& 0xFF) % 256, ((temp >>> 8) &&& 0xFF) % 256].getD i 0)
      = temp_frame temp := by
    rw [range_two_getD, low_byte, high_byte]
    rfl
  have hr : ((ENS160_RH_IN <<< 1) &&& 0xFE) % 256 ::
      (List.range 2).map
        (fun i => [(rh &&& 0xFF) % 256, ((rh >>> 8) &&& 0xFF) % 256].getD i 0)
      = rh_frame rh := by
    rw [range_two_getD, low_byte, high_byte]
    rfl
  have e1 := write_register_bound w f hb ENS160_TEMP_IN
    [(temp &&& 0xFF) % 256, ((temp >>> 8) &&& 0xFF) % 256] 2
  rw [ht] at e1
  have e2 := write_register_bound
    { w with bus := (f w.bus (temp_frame temp) 3).2,
             trace := w.trace ++ [(temp_frame temp, 3)] } f hb ENS160_RH_IN
    [(rh &&& 0xFF) % 256, ((rh >>> 8) &&& 0xFF) % 256] 2
  rw [hr] at e2
  simp only [ens160_write_compensation, e1]
  by_cases h : (f w.bus (temp_frame temp) 3).1.ret = 0
  · by_cases h2 : (f (f w.bus (temp_frame temp) 3).2 (rh_frame rh) 3).1.ret = 0
    · simp [h, h2, e2]
    · simp [h, h2, e2]
  · simp [h]

theorem get_tvoc_ok (w : Driver σ) (f : ens160_spi_transfer_t σ) (lo hi : Nat)
    (hb : w.spi_transfer = some f) (hlo : lo < 256) (hhi : hi < 256)
    (hret : (f w.bus (read_frame 0x22 2) 3).1.ret = 0)
    (h1 : (f w.bus (read_frame 0x22 2) 3).1.rx[1]? = some lo)
    (h2 : (f w.bus (read_frame 0x22 2) 3).1.rx[2]? = some hi) :
    ens160_get_tvoc w =
      (lo + 256 * hi,
        { w with bus := (f w.bus (read_frame 0x22 2) 3).2,
                 trace := w.trace ++ [(read_frame 0x22 2, 3)] }) := by
  have hid : (([lo, hi].getD 1 0 <<< 8) ||| [lo, hi].getD 0 0) % 65536 = lo + 256 * hi :=
    le16_decode lo hi hlo hhi
  simp only [ens160_get_tvoc, ENS160_DATA_TVOC, read_two_ok w f 0x22 lo hi hb hret h1 h2, hid]
  simp

theorem get_eco2_ok (w : Driver σ) (f : ens160_spi_transfer_t σ) (lo hi : Nat)
    (hb : w.spi_transfer = some f) (hlo : lo < 256) (hhi : hi < 256)
    (hret : (f w.bus (read_frame 0x24 2) 3).1.ret = 0)
    (h1 : (f w.bus (read_frame 0x24 2) 3).1.rx[1]? = some lo)
    (h2 : (f w.bus (read_frame 0x24 2) 3).1.rx[2]? = some hi) :
    ens160_get_eco2 w =
      (lo + 256 * hi,
        { w with bus := (f w.bus (read_frame 0x24 2) 3).2,
                 trace := w.trace ++ [(read_frame 0x24 2, 3)] }) := by
  have hid : (([lo, hi].getD 1 0 <<< 8) ||| [lo, hi].getD 0 0) % 65536 = lo + 256 * hi :=
    le16_decode lo hi hlo hhi
  simp only [ens160_get_eco2, ENS160_DATA_ECO2, read_two_ok w f 0x24 lo hi hb hret h1 h2, hid]
  simp

theorem bytes_recombine (t : Nat) (ht : t ≤ 0xFFFF) : t % 256 + 256 * (t / 256 % 256) = t := by
  omega

theorem read_register_unbound (w : Driver σ) (hn : w.spi_transfer = none)
    (reg_addr len : Nat) :
    ens160_read_register w reg_addr len = (ENS160_ERROR, [], w) := by
  simp only [ens160_read_register, hn]

theorem write_register_unbound (w : Driver σ) (hn : w.spi_transfer = none)
    (reg_addr : Nat) (data : List Nat) (len : Nat) :
    ens160_write_register w reg_addr data len = (ENS160_ERROR, w) := by
  simp only [ens160_write_register, hn]

theorem range_map_getD_self (p : List Nat) :
    (List.range p.length).map (fun i => p.getD i 0) = p := by
  apply List.ext_getElem
  · simp
  · intro i h1 h2
    simp at h1
    simp [List.getD_eq_getElem?_getD, List.getElem?_eq_getElem h1]

theorem set_mode_bound (w : Driver σ) (f : ens160_spi_transfer_t σ)
    (hb : w.spi_transfer = some f) (mode : Nat) :
    ens160_set_mode w mode =
      (if (f w.bus [0x20, mode] 2).1.ret ≠ 0 then ENS160_ERROR else ENS160_OK,
        { w with bus := (f w.bus [0x20, mode] 2).2,
                 trace := w.trace ++ [([0x20, mode], 2)] }) := by
  have h := write_register_bound w f hb ENS160_OPMODE [mode] 1
  have hfr : ((ENS160_OPMODE <<< 1) &&& 0xFE) % 256 ::
      (List.range 1).map (fun i => [mode].getD i 0) = [0x20, mode] := by
    have h1 : ((ENS160_OPMODE <<< 1) &&& 0xFE) % 256 = 0x20 := by decide
    rw [h1]
    simp [List.range_succ]
  rw [hfr] at h
  exact h

theorem reset_poll_keeps_transfer (f : ens160_spi_transfer_t σ) :
    ∀ (n : Nat) (w : Driver σ), w.spi_transfer = some f →
      (ens160_reset_poll n w).2.spi_transfer = some f := by
  intro n
  induction n with
  | zero =>
    intro w hb
    simpa [ens160_reset_poll] using hb
  | succ n ih =>
    intro w hb
    by_cases hp : poll_passes (f w.bus [0x41, 0x00] 2).1
    · rw [reset_poll_step_done n w f hb hp]
      exact hb
    · rw [reset_poll_step_retry n w f hb hp]
      exact ih { w with bus := (f w.bus [0x41, 0x00] 2).2,
                        trace := w.trace ++ [([0x41, 0x00], 2)] } hb

theorem identity_frame : read_frame ENS160_PART_ID 2 = [0x01, 0x00, 0x00] := by decide

theorem init_unbound (w : Driver σ) (hn : w.spi_transfer = none) :
    ens160_init w = (false, w) := by
  simp [ens160_init, read_register_unbound w hn]

theorem init_read_fails (w : Driver σ) (f : ens160_spi_transfer_t σ)
    (hb : w.spi_transfer = some f)
    (hret : (f w.bus (read_frame ENS160_PART_ID 2) 3).1.ret ≠ 0) :
    ens160_init w =
      (false, { w with bus := (f w.bus (read_frame ENS160_PART_ID 2) 3).2,
                       trace := w.trace ++ [([0x01, 0x00, 0x00], 3)] }) := by
  simp [ens160_init, read_register_fail w f hb _ _ hret, identity_frame]

theorem init_wrong_identity (w : Driver σ) (f : ens160_spi_transfer_t σ)
    (hb : w.spi_transfer = some f)
    (hret : (f w.bus (read_frame ENS160_PART_ID 2) 3).1.ret = 0)
    (hid : ((((f w.bus (read_frame ENS160_PART_ID 2) 3).1.rx.getD 2 0) <<< 8) |||
      ((f w.bus (read_frame ENS160_PART_ID 2) 3).1.rx.getD 1 0)) % 65536 ≠ 0x0160) :
    ens160_init w =
      (false, { w with bus := (f w.bus (read_frame ENS160_PART_ID 2) 3).2,
                       trace := w.trace ++ [([0x01, 0x00, 0x00], 3)] }) := by
  simp only [ens160_init, read_register_ok w f hb _ _ hret, range_two_map,
    List.getD_cons_zero, List.getD_cons_succ]
  rw [if_neg (by simp), if_pos hid, identity_frame]

theorem init_right_identity (w : Driver σ) (f : ens160_spi_transfer_t σ)
    (hb : w.spi_transfer = some f)
    (hret : (f w.bus (read_frame ENS160_PART_ID 2) 3).1.ret = 0)
    (hid : ((((f w.bus (read_frame ENS160_PART_ID 2) 3).1.rx.getD 2 0) <<< 8) |||
      ((f w.bus (read_frame ENS160_PART_ID 2) 3).1.rx.getD 1 0)) % 65536 = 0x0160) :
    ens160_init w =
      if (ens160_reset { w with bus := (f w.bus (read_frame ENS160_PART_ID 2) 3).2,
                                trace := w.trace ++ [([0x01, 0x00, 0x00], 3)] }).1 ≠ ENS160_OK
      then (false,
        (ens160_reset { w with bus := (f w.bus (read_frame ENS160_PART_ID 2) 3).2,
                               trace := w.trace ++ [([0x01, 0x00, 0x00], 3)] }).2)
      else if (ens160_set_mode
          (ens160_reset { w with bus := (f w.bus (read_frame ENS160_PART_ID 2) 3).2,
                                 trace := w.trace ++ [([0x01, 0x00, 0x00], 3)] }).2
          ENS160_OPMODE_IDLE).1 ≠ ENS160_OK
      then (false, (ens160_set_mode
          (ens160_reset { w with bus := (f w.bus (read_frame ENS160_PART_ID 2) 3).2,
                                 trace := w.trace ++ [([0x01, 0x00, 0x00], 3)] }).2
          ENS160_OPMODE_IDLE).2)
      else (true, (ens160_set_mode
          (ens160_reset { w with bus := (f w.bus (read_frame ENS160_PART_ID 2) 3).2,
                                 trace := w.trace ++ [([0x01, 0x00, 0x00], 3)] }).2
          ENS160_OPMODE_IDLE).2) := by
  simp only [ens160_init, read_register_ok w f hb _ _ hret, range_two_map,
    List.getD_cons_zero, List.getD_cons_succ]
  rw [if_neg (by simp), if_neg (by simpa using hid), identity_frame]

theorem headers_seven_bit :
    ∀ a, a < 128 →
      ((a <<< 1) ||| 0x01) % 256 = (a <<< 1) ||| 0x01 ∧
      ((a <<< 1) &&& 0xFE) % 256 = (a <<< 1) &&& 0xFE := by
  decide

/-! ## Claims -/

/-- C1: with a transport bound that reports success, `ens160_read_register` returns
`ENS160_OK` and the payload is exactly response bytes `1 .. N` in order, response
byte `0` being dropped, for every register address and every length `N`. -/
theorem read_register_drops_status_byte (w : Driver σ) (f : ens160_spi_transfer_t σ)
    (reg_addr N S : Nat) (payload : List Nat)
    (hb : w.spi_transfer = some f)
    (hret : (f w.bus (read_frame reg_addr N) (N + 1)).1.ret = 0)
    (hrx : (f w.bus (read_frame reg_addr N) (N + 1)).1.rx = S :: payload)
    (hlen : payload.length = N) :
    (ens160_read_register w reg_addr N).1 = ENS160_OK ∧
      (ens160_read_register w reg_addr N).2.1 = payload := by
  subst hlen
  rw [read_register_bound w f hb, if_neg (by simpa using hret), hrx]
  exact ⟨rfl, range_map_getD_cons S payload⟩

theorem read_register_drops_status_byte_witness :
    (ens160_read_register
        (⟨some (constant_transport ⟨0, [0xEE, 0x12, 0x34]⟩), (), []⟩ : Driver Unit) 0x22 2).1
        = ENS160_OK ∧
      (ens160_read_register
        (⟨some (constant_transport ⟨0, [0xEE, 0x12, 0x34]⟩), (), []⟩ : Driver Unit) 0x22 2).2.1
        = [0x12, 0x34] :=
  read_register_drops_status_byte _ (constant_transport ⟨0, [0xEE, 0x12, 0x34]⟩) 0x22 2 0xEE
    [0x12, 0x34] rfl (by decide) (by decide) (by decide)

/-- C2: for every 7-bit register address `a`, the frame `ens160_write_register` hands
to the transport starts with a header whose bit 0 is 0, the frame
`ens160_read_register` hands over starts with a header whose bit 0 is 1, and in
both the header shifted right by one bit is `a`. -/
theorem header_direction_bit (w : Driver σ) (f : ens160_spi_transfer_t σ) (a : Nat)
    (data : List Nat) (len : Nat) (hb : w.spi_transfer = some f) (ha : a ≤ 0x7F) :
    ∃ hw hr restw restr,
      (ens160_write_register w a data len).2.trace = w.trace ++ [(hw :: restw, len + 1)] ∧
      hw &&& 1 = 0 ∧ hw >>> 1 = a ∧
      (ens160_read_register w a len).2.2.trace = w.trace ++ [(hr :: restr, len + 1)] ∧
      hr &&& 1 = 1 ∧ hr >>> 1 = a := by
  obtain ⟨h1, h2, h3, h4⟩ := header_bits a (by omega)
  refine ⟨((a <<< 1) &&& 0xFE) % 256, ((a <<< 1) ||| 0x01) % 256,
    (List.range len).map (fun i => data.getD i 0), List.replicate len 0x00, ?_, h1, h2, ?_, h3, h4⟩
  · rw [write_register_bound w f hb]
  · rw [read_register_bound w f hb]
    split <;> rfl

theorem header_direction_bit_witness :
    ∃ hw hr restw restr,
      (ens160_write_register (⟨some (constant_transport ⟨0, [0, 0, 0]⟩), (), []⟩ : Driver Unit)
          0x13 [0xAB, 0xCD] 2).2.trace = [] ++ [(hw :: restw, 2 + 1)] ∧
      hw &&& 1 = 0 ∧ hw >>> 1 = 0x13 ∧
      (ens160_read_register (⟨some (constant_transport ⟨0, [0, 0, 0]⟩), (), []⟩ : Driver Unit)
          0x13 2).2.2.trace = [] ++ [(hr :: restr, 2 + 1)] ∧
      hr &&& 1 = 1 ∧ hr >>> 1 = 0x13 :=
  header_direction_bit _ (constant_transport ⟨0, [0, 0, 0]⟩) 0x13 [0xAB, 0xCD] 2 rfl (by decide)

/-- C3: with a transport bound, what `ens160_reset` sends is the mode write
`[0x20, 0xF0]` first and after it nothing but status polls `[0x41, 0x00]`, at most
100 of them.  When the mode write is accepted: if the first `K < 100` polls report
the device-error bit set and poll `K + 1` reports it clear, the result is
`ENS160_OK` and exactly `K + 1` polls were made; if each of the first 100 polls
reports the error bit set, the result is `ENS160_ERROR` and exactly 100 polls were
made. -/
theorem reset_bounded_retry (w : Driver σ) (f : ens160_spi_transfer_t σ) (K : Nat)
    (hb : w.spi_transfer = some f) :
    (∃ k, k ≤ 100 ∧ (ens160_reset w).2.trace =
        w.trace ++ ([0x20, 0xF0], 2) :: List.replicate k ([0x41, 0x00], 2)) ∧
    ((f w.bus [0x20, 0xF0] 2).1.ret = 0 → K < 100 →
      (∀ i, i < K → error_bit_set (nth_poll f (f w.bus [0x20, 0xF0] 2).2 i)) →
      error_bit_clear (nth_poll f (f w.bus [0x20, 0xF0] 2).2 K) →
      (ens160_reset w).1 = ENS160_OK ∧
      (ens160_reset w).2.trace =
        w.trace ++ ([0x20, 0xF0], 2) :: List.replicate (K + 1) ([0x41, 0x00], 2)) ∧
    ((f w.bus [0x20, 0xF0] 2).1.ret = 0 →
      (∀ i, i < 100 → error_bit_set (nth_poll f (f w.bus [0x20, 0xF0] 2).2 i)) →
      (ens160_reset w).1 = ENS160_ERROR ∧
      (ens160_reset w).2.trace =
        w.trace ++ ([0x20, 0xF0], 2) :: List.replicate 100 ([0x41, 0x00], 2)) := by
  refine ⟨?_, ?_, ?_⟩
  · by_cases hw : (f w.bus [0x20, 0xF0] 2).1.ret = 0
    · rw [reset_after_mode_write w f hb hw]
      obtain ⟨k, hk, _, htr⟩ := reset_poll_trace f 100
        { w with bus := (f w.bus [0x20, 0xF0] 2).2, trace := w.trace ++ [([0x20, 0xF0], 2)] } hb
      exact ⟨k, hk, by rw [htr]; simp⟩
    · rw [reset_mode_write_fails w f hb hw]
      exact ⟨0, by omega, by simp⟩
  · intro hw hK hset hclr
    rw [reset_after_mode_write w f hb hw]
    have h := reset_poll_succeeds f K 100
      { w with bus := (f w.bus [0x20, 0xF0] 2).2, trace := w.trace ++ [([0x20, 0xF0], 2)] }
      hb hK (fun i hi => error_bit_set_not_passes _ (hset i hi)) ⟨hclr.1, hclr.2.2⟩
    rw [h]
    simp
  · intro hw hset
    rw [reset_after_mode_write w f hb hw]
    have h := reset_poll_exhausts f 100
      { w with bus := (f w.bus [0x20, 0xF0] 2).2, trace := w.trace ++ [([0x20, 0xF0], 2)] }
      hb (fun i hi => error_bit_set_not_passes _ (hset i hi))
    rw [h]
    simp

theorem reset_bounded_retry_witness :
    ((ens160_reset (⟨some (busy_sensor 3), 0, []⟩ : Driver Nat)).1 = ENS160_OK ∧
      (ens160_reset (⟨some (busy_sensor 3), 0, []⟩ : Driver Nat)).2.trace =
        [] ++ ([0x20, 0xF0], 2) :: List.replicate (3 + 1) ([0x41, 0x00], 2)) ∧
    ((ens160_reset (⟨some (busy_sensor 100), 0, []⟩ : Driver Nat)).1 = ENS160_ERROR ∧
      (ens160_reset (⟨some (busy_sensor 100), 0, []⟩ : Driver Nat)).2.trace =
        [] ++ ([0x20, 0xF0], 2) :: List.replicate 100 ([0x41, 0x00], 2)) :=
  ⟨(reset_bounded_retry ⟨some (busy_sensor 3), 0, []⟩ (busy_sensor 3) 3 rfl).2.1
      (by decide) (by decide) (by decide) (by decide),
    (reset_bounded_retry ⟨some (busy_sensor 100), 0, []⟩ (busy_sensor 100) 0 rfl).2.2
      (by decide) (by decide)⟩

/-- C4: when the identity read succeeds and delivers the bytes `lo`, `hi` (low byte
first), `ens160_init` returns false whenever `lo + 256 * hi` differs from `0x0160`,
and it returns true exactly when that value is `0x0160` and both the reset that
follows and the write of the Idle mode after it return `ENS160_OK`. -/
theorem init_identity_check (w : Driver σ) (f : ens160_spi_transfer_t σ) (lo hi : Nat)
    (hb : w.spi_transfer = some f)
    (hret : (f w.bus (read_frame ENS160_PART_ID 2) 3).1.ret = 0)
    (h1 : (f w.bus (read_frame ENS160_PART_ID 2) 3).1.rx[1]? = some lo)
    (h2 : (f w.bus (read_frame ENS160_PART_ID 2) 3).1.rx[2]? = some hi)
    (hlo : lo < 256) (hhi : hi < 256) :
    (lo + 256 * hi ≠ 0x0160 → (ens160_init w).1 = false) ∧
    ((ens160_init w).1 = true ↔
      lo + 256 * hi = 0x0160 ∧
      (ens160_reset (ens160_read_register w ENS160_PART_ID 2).2.2).1 = ENS160_OK ∧
      (ens160_set_mode (ens160_reset (ens160_read_register w ENS160_PART_ID 2).2.2).2
        ENS160_OPMODE_IDLE).1 = ENS160_OK) := by
  have hid : (([lo, hi].getD 1 0 <<< 8) ||| [lo, hi].getD 0 0) % 65536 = lo + 256 * hi :=
    le16_decode lo hi hlo hhi
  simp only [ens160_init, read_two_ok w f ENS160_PART_ID lo hi hb hret h1 h2, hid]
  constructor
  · intro hne
    simp [hne]
  · by_cases hv : lo + 256 * hi = 0x0160
    · simp only [hv]
      split_ifs <;> simp_all
    · simp [hv]

theorem init_identity_check_witness :
    (ens160_init (⟨some (constant_transport ⟨0, [0x00, 0x61, 0x01]⟩), (), []⟩ :
        Driver Unit)).1 = false ∧
      (ens160_init (⟨some healthy_sensor, (), []⟩ : Driver Unit)).1 = true :=
  ⟨(init_identity_check _ (constant_transport ⟨0, [0x00, 0x61, 0x01]⟩) 0x61 0x01 rfl
      (by decide) (by decide) (by decide) (by decide) (by decide)).1 (by decide),
    (init_identity_check _ healthy_sensor 0x60 0x01 rfl (by decide) (by decide) (by decide)
      (by decide) (by decide)).2.2 ⟨by decide, by decide, by decide⟩⟩

/-- C5: when the AQI read succeeds and response byte 1 is `r`,
`ens160_get_air_quality_index` returns `r AND 0x07`, which lies in `0 .. 7`; raw
`0xFF` gives `0x07` and raw `0x08` gives `0x00`. -/
theorem aqi_masked (w : Driver σ) (f : ens160_spi_transfer_t σ) (r : Nat)
    (hb : w.spi_transfer = some f)
    (hret : (f w.bus (read_frame ENS160_DATA_AQI 1) 2).1.ret = 0)
    (hrx : (f w.bus (read_frame ENS160_DATA_AQI 1) 2).1.rx[1]? = some r) :
    (ens160_get_air_quality_index w).1 = r &&& 0x07 ∧
      (ens160_get_air_quality_index w).1 ≤ 7 ∧
      (r = 0xFF → (ens160_get_air_quality_index w).1 = 0x07) ∧
      (r = 0x08 → (ens160_get_air_quality_index w).1 = 0x00) := by
  have hle : r &&& 0x07 ≤ 7 := Nat.and_le_right
  have hv : (ens160_get_air_quality_index w).1 = r &&& 0x07 := by
    simp only [ens160_get_air_quality_index, read_register_ok w f hb _ _ hret]
    simp only [List.range_succ, List.range_zero, List.nil_append, List.map_cons, List.map_nil,
      Nat.zero_add, getD_of_getElem? _ _ _ hrx, List.getD_cons_zero]
    exact Nat.mod_eq_of_lt (by omega)
  refine ⟨hv, hv ▸ hle, ?_, ?_⟩
  · rintro rfl; rw [hv]; decide
  · rintro rfl; rw [hv]; decide

theorem aqi_masked_witness :
    ((ens160_get_air_quality_index
        (⟨some (constant_transport ⟨0, [0x00, 0xFF]⟩), (), []⟩ : Driver Unit)).1 = 0xFF &&& 0x07 ∧
      (ens160_get_air_quality_index
        (⟨some (constant_transport ⟨0, [0x00, 0xFF]⟩), (), []⟩ : Driver Unit)).1 ≤ 7) ∧
      (ens160_get_air_quality_index
        (⟨some (constant_transport ⟨0, [0x00, 0xFF]⟩), (), []⟩ : Driver Unit)).1 = 0x07 ∧
      (ens160_get_air_quality_index
        (⟨some (constant_transport ⟨0, [0x00, 0x08]⟩), (), []⟩ : Driver Unit)).1 = 0x00 :=
  ⟨⟨(aqi_masked _ (constant_transport ⟨0, [0x00, 0xFF]⟩) 0xFF rfl (by decide) (by decide)).1,
      (aqi_masked _ (constant_transport ⟨0, [0x00, 0xFF]⟩) 0xFF rfl (by decide) (by decide)).2.1⟩,
    (aqi_masked _ (constant_transport ⟨0, [0x00, 0xFF]⟩) 0xFF rfl (by decide)
      (by decide)).2.2.1 rfl,
    (aqi_masked _ (constant_transport ⟨0, [0x00, 0x08]⟩) 0x08 rfl (by decide)
      (by decide)).2.2.2 rfl⟩

/-- C6: when the two-byte read succeeds and delivers `lo` as response byte 1 and `hi`
as response byte 2, `ens160_get_tvoc` (reading register `0x22`) and
`ens160_get_eco2` (reading register `0x24`) each return `lo + 256 * hi`. -/
theorem tvoc_eco2_little_endian (w : Driver σ) (f : ens160_spi_transfer_t σ) (lo hi : Nat)
    (hb : w.spi_transfer = some f) (hlo : lo < 256) (hhi : hi < 256) :
    ((f w.bus (read_frame 0x22 2) 3).1.ret = 0 →
      (f w.bus (read_frame 0x22 2) 3).1.rx[1]? = some lo →
      (f w.bus (read_frame 0x22 2) 3).1.rx[2]? = some hi →
      (ens160_get_tvoc w).1 = lo + 256 * hi ∧
      (ens160_get_tvoc w).2.trace = w.trace ++ [(read_frame 0x22 2, 3)]) ∧
    ((f w.bus (read_frame 0x24 2) 3).1.ret = 0 →
      (f w.bus (read_frame 0x24 2) 3).1.rx[1]? = some lo →
      (f w.bus (read_frame 0x24 2) 3).1.rx[2]? = some hi →
      (ens160_get_eco2 w).1 = lo + 256 * hi ∧
      (ens160_get_eco2 w).2.trace = w.trace ++ [(read_frame 0x24 2, 3)]) := by
  constructor
  · intro hret h1 h2
    rw [get_tvoc_ok w f lo hi hb hlo hhi hret h1 h2]
    exact ⟨rfl, rfl⟩
  · intro hret h1 h2
    rw [get_eco2_ok w f lo hi hb hlo hhi hret h1 h2]
    exact ⟨rfl, rfl⟩

theorem tvoc_eco2_little_endian_witness :
    ((ens160_get_tvoc (⟨some (constant_transport ⟨0, [0x00, 0x34, 0x12]⟩), (), []⟩ :
        Driver Unit)).1 = 0x34 + 256 * 0x12 ∧
      (ens160_get_tvoc (⟨some (constant_transport ⟨0, [0x00, 0x34, 0x12]⟩), (), []⟩ :
        Driver Unit)).2.trace = [] ++ [(read_frame 0x22 2, 3)]) ∧
    ((ens160_get_eco2 (⟨some (constant_transport ⟨0, [0x00, 0x34, 0x12]⟩), (), []⟩ :
        Driver Unit)).1 = 0x34 + 256 * 0x12 ∧
      (ens160_get_eco2 (⟨some (constant_transport ⟨0, [0x00, 0x34, 0x12]⟩), (), []⟩ :
        Driver Unit)).2.trace = [] ++ [(read_frame 0x24 2, 3)]) :=
  ⟨(tvoc_eco2_little_endian _ (constant_transport ⟨0, [0x00, 0x34, 0x12]⟩) 0x34 0x12 rfl
      (by decide) (by decide)).1 (by decide) (by decide) (by decide),
    (tvoc_eco2_little_endian _ (constant_transport ⟨0, [0x00, 0x34, 0x12]⟩) 0x34 0x12 rfl
      (by decide) (by decide)).2 (by decide) (by decide) (by decide)⟩

/-- C7: for `temp` and `rh` in `[0, 0xFFFF]`, the payload bytes that
`ens160_write_compensation` hands to the transport after the headers `0x26` and
`0x2A` decode back to `temp` and to `rh` when a two-byte read delivers them as
response bytes 1 and 2 to `ens160_get_tvoc` or to `ens160_get_eco2`. -/
theorem compensation_round_trip (w : Driver σ) (f : ens160_spi_transfer_t σ) (temp rh : Nat)
    (hb : w.spi_transfer = some f) (ht : temp ≤ 0xFFFF) (hr : rh ≤ 0xFFFF)
    (hfirst : (f w.bus (temp_frame temp) 3).1.ret = 0) :
    ∃ t0 t1 r0 r1,
      (ens160_write_compensation w temp rh).2.trace =
        w.trace ++ [([0x26, t0, t1], 3), ([0x2A, r0, r1], 3)] ∧
      ∀ (v : Driver σ) (g : ens160_spi_transfer_t σ) (S : Nat), v.spi_transfer = some g →
        ((g v.bus (read_frame 0x22 2) 3).1 = ⟨0, [S, t0, t1]⟩ → (ens160_get_tvoc v).1 = temp) ∧
        ((g v.bus (read_frame 0x22 2) 3).1 = ⟨0, [S, r0, r1]⟩ → (ens160_get_tvoc v).1 = rh) ∧
        ((g v.bus (read_frame 0x24 2) 3).1 = ⟨0, [S, t0, t1]⟩ → (ens160_get_eco2 v).1 = temp) ∧
        ((g v.bus (read_frame 0x24 2) 3).1 = ⟨0, [S, r0, r1]⟩ → (ens160_get_eco2 v).1 = rh) := by
  refine ⟨temp % 256, temp / 256 % 256, rh % 256, rh / 256 % 256, ?_, ?_⟩
  · rw [write_compensation_bound w f hb, if_neg (by simpa using hfirst)]
    rfl
  · intro v g S hv
    refine ⟨fun h => ?_, fun h => ?_, fun h => ?_, fun h => ?_⟩
    · rw [get_tvoc_ok v g (temp % 256) (temp / 256 % 256) hv (by omega) (by omega)
        (by rw [h]) (by rw [h]; rfl) (by rw [h]; rfl)]
      exact bytes_recombine temp ht
    · rw [get_tvoc_ok v g (rh % 256) (rh / 256 % 256) hv (by omega) (by omega)
        (by rw [h]) (by rw [h]; rfl) (by rw [h]; rfl)]
      exact bytes_recombine rh hr
    · rw [get_eco2_ok v g (temp % 256) (temp / 256 % 256) hv (by omega) (by omega)
        (by rw [h]) (by rw [h]; rfl) (by rw [h]; rfl)]
      exact bytes_recombine temp ht
    · rw [get_eco2_ok v g (rh % 256) (rh / 256 % 256) hv (by omega) (by omega)
        (by rw [h]) (by rw [h]; rfl) (by rw [h]; rfl)]
      exact bytes_recombine rh hr

theorem compensation_round_trip_witness :
    ∃ t0 t1 r0 r1,
      (ens160_write_compensation (⟨some healthy_sensor, (), []⟩ : Driver Unit)
          0x4A89 0x6400).2.trace =
        [] ++ [([0x26, t0, t1], 3), ([0x2A, r0, r1], 3)] ∧
      (ens160_get_tvoc (⟨some (constant_transport ⟨0, [0x00, t0, t1]⟩), (), []⟩ :
        Driver Unit)).1 = 0x4A89 ∧
      (ens160_get_tvoc (⟨some (constant_transport ⟨0, [0x00, r0, r1]⟩), (), []⟩ :
        Driver Unit)).1 = 0x6400 ∧
      (ens160_get_eco2 (⟨some (constant_transport ⟨0, [0x00, t0, t1]⟩), (), []⟩ :
        Driver Unit)).1 = 0x4A89 ∧
      (ens160_get_eco2 (⟨some (constant_transport ⟨0, [0x00, r0, r1]⟩), (), []⟩ :
        Driver Unit)).1 = 0x6400 :=
  match compensation_round_trip (⟨some healthy_sensor, (), []⟩ : Driver Unit) healthy_sensor
      0x4A89 0x6400 rfl (by decide) (by decide) (by decide) with
  | ⟨t0, t1, r0, r1, htr, hdec⟩ =>
    ⟨t0, t1, r0, r1, htr,
      (hdec ⟨some (constant_transport ⟨0, [0x00, t0, t1]⟩), (), []⟩ _ 0x00 rfl).1 rfl,
      (hdec ⟨some (constant_transport ⟨0, [0x00, r0, r1]⟩), (), []⟩ _ 0x00 rfl).2.1 rfl,
      (hdec ⟨some (constant_transport ⟨0, [0x00, t0, t1]⟩), (), []⟩ _ 0x00 rfl).2.2.1 rfl,
      (hdec ⟨some (constant_transport ⟨0, [0x00, r0, r1]⟩), (), []⟩ _ 0x00 rfl).2.2.2 rfl⟩

/-- C8: on a bound transport whose every exchange returns non-zero, `ens160_update`
returns `ENS160_ERROR`, `ens160_get_tvoc`, `ens160_get_eco2`,
`ens160_get_air_quality_index` and `ens160_get_status` return 0 and
`ens160_has_new_data` returns false. -/
theorem all_exchanges_fail (w : Driver σ) (f : ens160_spi_transfer_t σ)
    (hb : w.spi_transfer = some f) (hfail : ∀ s tx n, (f s tx n).1.ret ≠ 0) :
    (ens160_update w).1 = ENS160_ERROR ∧
      (ens160_get_tvoc w).1 = 0 ∧
      (ens160_get_eco2 w).1 = 0 ∧
      (ens160_get_air_quality_index w).1 = 0 ∧
      (ens160_get_status w).1 = 0 ∧
      (ens160_has_new_data w).1 = false := by
  have h := read_register_all_fail w f hb hfail
  refine ⟨?_, ?_, ?_, ?_, ?_, ?_⟩
  · simp [ens160_update, h]
  · simp [ens160_get_tvoc, h]
  · simp [ens160_get_eco2, h]
  · simp [ens160_get_air_quality_index, h]
  · simp [ens160_get_status, h]
  · simp [ens160_has_new_data, h]

theorem all_exchanges_fail_witness :
    (ens160_update (⟨some dead_bus, (), []⟩ : Driver Unit)).1 = ENS160_ERROR ∧
      (ens160_get_tvoc (⟨some dead_bus, (), []⟩ : Driver Unit)).1 = 0 ∧
      (ens160_get_eco2 (⟨some dead_bus, (), []⟩ : Driver Unit)).1 = 0 ∧
      (ens160_get_air_quality_index (⟨some dead_bus, (), []⟩ : Driver Unit)).1 = 0 ∧
      (ens160_get_status (⟨some dead_bus, (), []⟩ : Driver Unit)).1 = 0 ∧
      (ens160_has_new_data (⟨some dead_bus, (), []⟩ : Driver Unit)).1 = false :=
  all_exchanges_fail _ dead_bus rfl (fun _ _ _ => by simp [dead_bus])

/-- C9: when the status read succeeds and delivers the status byte `s`,
`ens160_update` returns `ENS160_ERROR` if bit 6 (`0x40`) of `s` is set and
`ENS160_OK` otherwise, whatever the other bits are; for `s = 0b0100_0010` (error
and new data both set) it returns `ENS160_ERROR`. -/
theorem update_error_bit_decides (w : Driver σ) (f : ens160_spi_transfer_t σ) (s : Nat)
    (hb : w.spi_transfer = some f)
    (hret : (f w.bus (read_frame ENS160_DEVICE_STATUS 1) 2).1.ret = 0)
    (hrx : (f w.bus (read_frame ENS160_DEVICE_STATUS 1) 2).1.rx[1]? = some s) :
    (s &&& 0x40 ≠ 0 → (ens160_update w).1 = ENS160_ERROR) ∧
      (s &&& 0x40 = 0 → (ens160_update w).1 = ENS160_OK) ∧
      (s = 0x42 → (ens160_update w).1 = ENS160_ERROR) := by
  have hu : (ens160_update w).1 = if s &&& 0x40 ≠ 0 then ENS160_ERROR else ENS160_OK := by
    simp only [ens160_update, read_one_ok w f ENS160_DEVICE_STATUS s hb hret hrx,
      List.getD_cons_zero, ENS160_STATUS_STATER]
    split_ifs <;> simp_all
  refine ⟨fun h => ?_, fun h => ?_, ?_⟩
  · rw [hu, if_pos h]
  · rw [hu, if_neg (by simpa using h)]
  · rintro rfl
    rw [hu, if_pos (by decide)]

theorem update_error_bit_decides_witness :
    (ens160_update (⟨some (constant_transport ⟨0, [0x00, 0x42]⟩), (), []⟩ :
        Driver Unit)).1 = ENS160_ERROR ∧
      (ens160_update (⟨some (constant_transport ⟨0, [0x00, 0x02]⟩), (), []⟩ :
        Driver Unit)).1 = ENS160_OK ∧
      (ens160_update (⟨some (constant_transport ⟨0, [0x00, 0x42]⟩), (), []⟩ :
        Driver Unit)).1 = ENS160_ERROR :=
  ⟨(update_error_bit_decides _ (constant_transport ⟨0, [0x00, 0x42]⟩) 0x42 rfl (by decide)
      (by decide)).1 (by decide),
    (update_error_bit_decides _ (constant_transport ⟨0, [0x00, 0x02]⟩) 0x02 rfl (by decide)
      (by decide)).2.1 (by decide),
    (update_error_bit_decides _ (constant_transport ⟨0, [0x00, 0x42]⟩) 0x42 rfl (by decide)
      (by decide)).2.2 rfl⟩

/-- C10: with a transport bound, `ens160_write_compensation` always hands the
temperature frame `[0x13 << 1, low byte, high byte]` to the transport first; it
returns `ENS160_OK` exactly when that exchange and the exchange of the humidity
frame `[0x15 << 1, low byte, high byte]` that follows both return zero; and when
the first exchange succeeds and the second fails it returns `ENS160_ERROR` with
exactly those two exchanges made, the temperature frame and then the humidity
frame, and none after them. -/
theorem write_compensation_order (w : Driver σ) (f : ens160_spi_transfer_t σ) (temp rh : Nat)
    (hb : w.spi_transfer = some f) :
    (∃ rest, (ens160_write_compensation w temp rh).2.trace =
        w.trace ++ (temp_frame temp, 3) :: rest) ∧
    ((ens160_write_compensation w temp rh).1 = ENS160_OK ↔
      (f w.bus (temp_frame temp) 3).1.ret = 0 ∧
      (f (f w.bus (temp_frame temp) 3).2 (rh_frame rh) 3).1.ret = 0) ∧
    ((f w.bus (temp_frame temp) 3).1.ret = 0 →
      (ens160_write_compensation w temp rh).2.trace =
        w.trace ++ [(temp_frame temp, 3), (rh_frame rh, 3)]) ∧
    ((f w.bus (temp_frame temp) 3).1.ret = 0 →
      (f (f w.bus (temp_frame temp) 3).2 (rh_frame rh) 3).1.ret ≠ 0 →
      (ens160_write_compensation w temp rh).1 = ENS160_ERROR ∧
      (ens160_write_compensation w temp rh).2.trace =
        w.trace ++ [(temp_frame temp, 3), (rh_frame rh, 3)]) := by
  rw [write_compensation_bound w f hb]
  by_cases h1 : (f w.bus (temp_frame temp) 3).1.ret = 0
  · by_cases h2 : (f (f w.bus (temp_frame temp) 3).2 (rh_frame rh) 3).1.ret = 0
    · simp [h1, h2]
    · simp [h1, h2]
  · simp [h1]

theorem write_compensation_order_witness :
    (∃ rest, (ens160_write_compensation (⟨some (flaky_bus 1), 0, []⟩ : Driver Nat)
        0x4A89 0x6400).2.trace = [] ++ (temp_frame 0x4A89, 3) :: rest) ∧
    ((ens160_write_compensation (⟨some (flaky_bus 2), 0, []⟩ : Driver Nat)
        0x4A89 0x6400).1 = ENS160_OK) ∧
    ((ens160_write_compensation (⟨some (flaky_bus 1), 0, []⟩ : Driver Nat)
        0x4A89 0x6400).2.trace = [] ++ [(temp_frame 0x4A89, 3), (rh_frame 0x6400, 3)]) ∧
    ((ens160_write_compensation (⟨some (flaky_bus 1), 0, []⟩ : Driver Nat)
        0x4A89 0x6400).1 = ENS160_ERROR ∧
      (ens160_write_compensation (⟨some (flaky_bus 1), 0, []⟩ : Driver Nat)
        0x4A89 0x6400).2.trace = [] ++ [(temp_frame 0x4A89, 3), (rh_frame 0x6400, 3)]) :=
  ⟨(write_compensation_order ⟨some (flaky_bus 1), 0, []⟩ (flaky_bus 1) 0x4A89 0x6400 rfl).1,
    (write_compensation_order ⟨some (flaky_bus 2), 0, []⟩ (flaky_bus 2) 0x4A89 0x6400
      rfl).2.1.2 ⟨by decide, by decide⟩,
    (write_compensation_order ⟨some (flaky_bus 1), 0, []⟩ (flaky_bus 1) 0x4A89 0x6400
      rfl).2.2.1 (by decide),
    (write_compensation_order ⟨some (flaky_bus 1), 0, []⟩ (flaky_bus 1) 0x4A89 0x6400
      rfl).2.2.2 (by decide) (by decide)⟩

/-- C11: `ens160_begin` returns `ENS160_INVALID_PARAM` exactly when the supplied
transport is null; given a non-null transport it returns `ENS160_OK` and binds it;
given null it leaves the driver, bound or unbound, as it was. -/
theorem begin_binds_or_rejects (w : Driver σ) :
    (∀ transfer_func,
      (ens160_begin w transfer_func).1 = ENS160_INVALID_PARAM ↔ transfer_func = none) ∧
    (∀ f, ens160_begin w (some f) = (ENS160_OK, { w with spi_transfer := some f })) ∧
    ens160_begin w none = (ENS160_INVALID_PARAM, w) := by
  refine ⟨fun transfer_func => ?_, fun f => rfl, rfl⟩
  cases transfer_func with
  | none => simp [ens160_begin]
  | some f => simp [ens160_begin]

/-- C13: with a transport bound, `ens160_has_new_data` returns false when the status
exchange fails, and when it succeeds and delivers the status byte `s` it returns
true exactly when bit 1 (`0x02`) of `s` is set. -/
theorem has_new_data_iff (w : Driver σ) (f : ens160_spi_transfer_t σ)
    (hb : w.spi_transfer = some f) :
    ((f w.bus (read_frame ENS160_DEVICE_STATUS 1) 2).1.ret ≠ 0 →
      (ens160_has_new_data w).1 = false) ∧
    (∀ s, (f w.bus (read_frame ENS160_DEVICE_STATUS 1) 2).1.rx[1]? = some s →
      ((ens160_has_new_data w).1 = true ↔
        (f w.bus (read_frame ENS160_DEVICE_STATUS 1) 2).1.ret = 0 ∧ s &&& 0x02 ≠ 0)) := by
  constructor
  · intro hret
    simp [ens160_has_new_data, read_register_fail w f hb _ _ hret]
  · intro s hrx
    by_cases hret : (f w.bus (read_frame ENS160_DEVICE_STATUS 1) 2).1.ret = 0
    · simp [ens160_has_new_data, read_one_ok w f ENS160_DEVICE_STATUS s hb hret hrx, hret,
        ENS160_STATUS_NEWDAT]
    · simp [ens160_has_new_data, read_register_fail w f hb _ _ hret, hret]

theorem has_new_data_iff_witness :
    (ens160_has_new_data (⟨some dead_bus, (), []⟩ : Driver Unit)).1 = false ∧
      (ens160_has_new_data (⟨some (constant_transport ⟨0, [0x00, 0x42]⟩), (), []⟩ :
        Driver Unit)).1 = true ∧
      (ens160_has_new_data (⟨some (constant_transport ⟨0, [0x00, 0x40]⟩), (), []⟩ :
        Driver Unit)).1 ≠ true :=
  ⟨(has_new_data_iff ⟨some dead_bus, (), []⟩ dead_bus rfl).1 (by decide),
    ((has_new_data_iff _ (constant_transport ⟨0, [0x00, 0x42]⟩) rfl).2 0x42 (by decide)).2
      ⟨by decide, by decide⟩,
    fun h => (((has_new_data_iff _ (constant_transport ⟨0, [0x00, 0x40]⟩) rfl).2 0x40
      (by decide)).1 h).2 (by decide)⟩

/-- C14: with a transport bound and a mode byte `m` in `0 .. 255`, `ens160_set_mode`
makes exactly one exchange, of the 2-byte frame `[0x20, m]`, and returns
`ENS160_OK` exactly when that exchange returns zero (`ENS160_ERROR` otherwise);
`ens160_start_standard_measure` is `ens160_set_mode` at `0x02`. -/
theorem set_mode_passes_through (w : Driver σ) (f : ens160_spi_transfer_t σ) (m : Nat)
    (hb : w.spi_transfer = some f) (_ : m ≤ 0xFF) :
    (ens160_set_mode w m).2.trace = w.trace ++ [([0x20, m], 2)] ∧
      (ens160_set_mode w m).2.bus = (f w.bus [0x20, m] 2).2 ∧
      ((ens160_set_mode w m).1 = ENS160_OK ↔ (f w.bus [0x20, m] 2).1.ret = 0) ∧
      ((ens160_set_mode w m).1 = ENS160_ERROR ↔ (f w.bus [0x20, m] 2).1.ret ≠ 0) ∧
      ens160_start_standard_measure w = ens160_set_mode w 0x02 := by
  rw [set_mode_bound w f hb m]
  refine ⟨rfl, rfl, ?_, ?_, rfl⟩
  · by_cases h : (f w.bus [0x20, m] 2).1.ret = 0 <;> simp [h]
  · by_cases h : (f w.bus [0x20, m] 2).1.ret = 0 <;> simp [h]

theorem set_mode_passes_through_witness :
    (ens160_set_mode (⟨some (flaky_bus 1), 0, []⟩ : Driver Nat) 0x77).2.trace =
        [] ++ [([0x20, 0x77], 2)] ∧
      (ens160_set_mode (⟨some (flaky_bus 1), 0, []⟩ : Driver Nat) 0x77).2.bus =
        (flaky_bus 1 0 [0x20, 0x77] 2).2 ∧
      ((ens160_set_mode (⟨some (flaky_bus 1), 0, []⟩ : Driver Nat) 0x77).1 = ENS160_OK ↔
        (flaky_bus 1 0 [0x20, 0x77] 2).1.ret = 0) ∧
      ((ens160_set_mode (⟨some (flaky_bus 1), 0, []⟩ : Driver Nat) 0x77).1 = ENS160_ERROR ↔
        (flaky_bus 1 0 [0x20, 0x77] 2).1.ret ≠ 0) ∧
      ens160_start_standard_measure (⟨some (flaky_bus 1), 0, []⟩ : Driver Nat) =
        ens160_set_mode (⟨some (flaky_bus 1), 0, []⟩ : Driver Nat) 0x02 :=
  set_mode_passes_through ⟨some (flaky_bus 1), 0, []⟩ (flaky_bus 1) 0x77 rfl (by decide)

/-- C12, as stated, fails: with no transport bound `ens160_get_tvoc` returns 0, and 0
is what it also returns on a bound driver whose read of register `0x22` returns
`ENS160_OK` with zero payload bytes; the value returned reports no error. -/
theorem unbound_get_tvoc_reports_no_error :
    (ens160_get_tvoc (⟨none, (), []⟩ : Driver Unit)).1 = 0 ∧
      (ens160_read_register
        (⟨some (constant_transport ⟨0, [0x00, 0x00, 0x00]⟩), (), []⟩ : Driver Unit)
        ENS160_DATA_TVOC 2).1 = ENS160_OK ∧
      (ens160_get_tvoc
        (⟨some (constant_transport ⟨0, [0x00, 0x00, 0x00]⟩), (), []⟩ : Driver Unit)).1 = 0 := by
  decide

/-- C12, amended: with no transport bound none of the eleven operations makes a
transport exchange (each hands back the driver state, trace included, untouched);
`ens160_init` returns false, `ens160_set_mode`, `ens160_start_standard_measure`,
`ens160_write_compensation`, `ens160_update` and `ens160_reset` return
`ENS160_ERROR`, `ens160_has_new_data` returns false and the four getters return 0;
and what these five accessors return is what they also return on a bound driver
whose read succeeds and delivers zero bytes. -/
theorem unbound_operations (w : Driver σ) (mode temp rh : Nat)
    (hn : w.spi_transfer = none) :
    ens160_init w = (false, w) ∧
      ens160_set_mode w mode = (ENS160_ERROR, w) ∧
      ens160_start_standard_measure w = (ENS160_ERROR, w) ∧
      ens160_write_compensation w temp rh = (ENS160_ERROR, w) ∧
      ens160_update w = (ENS160_ERROR, w) ∧
      ens160_reset w = (ENS160_ERROR, w) ∧
      ens160_has_new_data w = (false, w) ∧
      ens160_get_air_quality_index w = (0, w) ∧
      ens160_get_tvoc w = (0, w) ∧
      ens160_get_eco2 w = (0, w) ∧
      ens160_get_status w = (0, w) ∧
      (∀ (v : Driver σ) (g : ens160_spi_transfer_t σ), v.spi_transfer = some g →
        ((g v.bus (read_frame ENS160_DEVICE_STATUS 1) 2).1.ret = 0 →
          (g v.bus (read_frame ENS160_DEVICE_STATUS 1) 2).1.rx[1]? = some 0 →
          (ens160_has_new_data v).1 = (ens160_has_new_data w).1 ∧
          (ens160_get_status v).1 = (ens160_get_status w).1) ∧
        ((g v.bus (read_frame ENS160_DATA_AQI 1) 2).1.ret = 0 →
          (g v.bus (read_frame ENS160_DATA_AQI 1) 2).1.rx[1]? = some 0 →
          (ens160_get_air_quality_index v).1 = (ens160_get_air_quality_index w).1) ∧
        ((g v.bus (read_frame ENS160_DATA_TVOC 2) 3).1.ret = 0 →
          (g v.bus (read_frame ENS160_DATA_TVOC 2) 3).1.rx[1]? = some 0 →
          (g v.bus (read_frame ENS160_DATA_TVOC 2) 3).1.rx[2]? = some 0 →
          (ens160_get_tvoc v).1 = (ens160_get_tvoc w).1) ∧
        ((g v.bus (read_frame ENS160_DATA_ECO2 2) 3).1.ret = 0 →
          (g v.bus (read_frame ENS160_DATA_ECO2 2) 3).1.rx[1]? = some 0 →
          (g v.bus (read_frame ENS160_DATA_ECO2 2) 3).1.rx[2]? = some 0 →
          (ens160_get_eco2 v).1 = (ens160_get_eco2 w).1)) := by
  have hr := read_register_unbound w hn
  have hw := write_register_unbound w hn
  have hnd : ens160_has_new_data w = (false, w) := by simp [ens160_has_new_data, hr]
  have haq : ens160_get_air_quality_index w = (0, w) := by
    simp [ens160_get_air_quality_index, hr]
  have htv : ens160_get_tvoc w = (0, w) := by simp [ens160_get_tvoc, hr]
  have hec : ens160_get_eco2 w = (0, w) := by simp [ens160_get_eco2, hr]
  have hst : ens160_get_status w = (0, w) := by simp [ens160_get_status, hr]
  refine ⟨init_unbound w hn, ?_, ?_, ?_, ?_, ?_, hnd, haq, htv, hec, hst, ?_⟩
  · simp [ens160_set_mode, hw]
  · simp [ens160_start_standard_measure, ens160_set_mode, hw]
  · simp [ens160_write_compensation, hw]
  · simp [ens160_update, hr]
  · simp [ens160_reset, hw]
  · intro v g hv
    rw [hnd, haq, htv, hec, hst]
    refine ⟨fun hret hrx => ⟨?_, ?_⟩, fun hret hrx => ?_, fun hret h1 h2 => ?_,
      fun hret h1 h2 => ?_⟩
    · simp [ens160_has_new_data, read_one_ok v g ENS160_DEVICE_STATUS 0 hv hret hrx]
    · simp [ens160_get_status, read_one_ok v g ENS160_DEVICE_STATUS 0 hv hret hrx]
    · simp [ens160_get_air_quality_index, read_one_ok v g ENS160_DATA_AQI 0 hv hret hrx]
    · rw [get_tvoc_ok v g 0 0 hv (by omega) (by omega) hret h1 h2]
    · rw [get_eco2_ok v g 0 0 hv (by omega) (by omega) hret h1 h2]

theorem unbound_operations_witness :
    (ens160_init (⟨none, (), []⟩ : Driver Unit) = (false, ⟨none, (), []⟩) ∧
      ens160_set_mode (⟨none, (), []⟩ : Driver Unit) 0x02 = (ENS160_ERROR, ⟨none, (), []⟩) ∧
      ens160_start_standard_measure (⟨none, (), []⟩ : Driver Unit) =
        (ENS160_ERROR, ⟨none, (), []⟩) ∧
      ens160_write_compensation (⟨none, (), []⟩ : Driver Unit) 0x4A89 0x6400 =
        (ENS160_ERROR, ⟨none, (), []⟩) ∧
      ens160_update (⟨none, (), []⟩ : Driver Unit) = (ENS160_ERROR, ⟨none, (), []⟩) ∧
      ens160_reset (⟨none, (), []⟩ : Driver Unit) = (ENS160_ERROR, ⟨none, (), []⟩) ∧
      ens160_has_new_data (⟨none, (), []⟩ : Driver Unit) = (false, ⟨none, (), []⟩) ∧
      ens160_get_air_quality_index (⟨none, (), []⟩ : Driver Unit) = (0, ⟨none, (), []⟩) ∧
      ens160_get_tvoc (⟨none, (), []⟩ : Driver Unit) = (0, ⟨none, (), []⟩) ∧
      ens160_get_eco2 (⟨none, (), []⟩ : Driver Unit) = (0, ⟨none, (), []⟩) ∧
      ens160_get_status (⟨none, (), []⟩ : Driver Unit) = (0, ⟨none, (), []⟩)) ∧
    ((ens160_has_new_data
          (⟨some (constant_transport ⟨0, [0x00, 0x00, 0x00]⟩), (), []⟩ : Driver Unit)).1 =
        (ens160_has_new_data (⟨none, (), []⟩ : Driver Unit)).1 ∧
      (ens160_get_status
          (⟨some (constant_transport ⟨0, [0x00, 0x00, 0x00]⟩), (), []⟩ : Driver Unit)).1 =
        (ens160_get_status (⟨none, (), []⟩ : Driver Unit)).1) ∧
    (ens160_get_air_quality_index
          (⟨some (constant_transport ⟨0, [0x00, 0x00, 0x00]⟩), (), []⟩ : Driver Unit)).1 =
        (ens160_get_air_quality_index (⟨none, (), []⟩ : Driver Unit)).1 ∧
    (ens160_get_tvoc
          (⟨some (constant_transport ⟨0, [0x00, 0x00, 0x00]⟩), (), []⟩ : Driver Unit)).1 =
        (ens160_get_tvoc (⟨none, (), []⟩ : Driver Unit)).1 ∧
    (ens160_get_eco2
          (⟨some (constant_transport ⟨0, [0x00, 0x00, 0x00]⟩), (), []⟩ : Driver Unit)).1 =
        (ens160_get_eco2 (⟨none, (), []⟩ : Driver Unit)).1 :=
  match unbound_operations (⟨none, (), []⟩ : Driver Unit) 0x02 0x4A89 0x6400 rfl with
  | ⟨h1, h2, h3, h4, h5, h6, h7, h8, h9, h10, h11, hs⟩ =>
    ⟨⟨h1, h2, h3, h4, h5, h6, h7, h8, h9, h10, h11⟩,
      (hs ⟨some (constant_transport ⟨0, [0x00, 0x00, 0x00]⟩), (), []⟩ _ rfl).1
        (by decide) (by decide),
      (hs ⟨some (constant_transport ⟨0, [0x00, 0x00, 0x00]⟩), (), []⟩ _ rfl).2.1
        (by decide) (by decide),
      (hs ⟨some (constant_transport ⟨0, [0x00, 0x00, 0x00]⟩), (), []⟩ _ rfl).2.2.1
        (by decide) (by decide) (by decide),
      (hs ⟨some (constant_transport ⟨0, [0x00, 0x00, 0x00]⟩), (), []⟩ _ rfl).2.2.2
        (by decide) (by decide) (by decide)⟩

/-- C15: whenever `ens160_init` returns true, what it sent is the 3-byte read of the
identity register `[0x01, 0, 0]`, then the mode write `[0x20, 0xF0]`, then `k`
status polls `[0x41, 0]` with `1 ≤ k ≤ 100`, and last the mode write `[0x20, 0x01]`
of the Idle code. -/
theorem init_success_trace (w : Driver σ) (h : (ens160_init w).1 = true) :
    ∃ k, 1 ≤ k ∧ k ≤ 100 ∧
      (ens160_init w).2.trace =
        w.trace ++ ([0x01, 0x00, 0x00], 3) :: ([0x20, 0xF0], 2) ::
          (List.replicate k ([0x41, 0x00], 2) ++ [([0x20, 0x01], 2)]) := by
  cases hs : w.spi_transfer with
  | none =>
    rw [init_unbound w hs] at h
    cases h
  | some f =>
    by_cases hret : (f w.bus (read_frame ENS160_PART_ID 2) 3).1.ret = 0
    swap
    · rw [init_read_fails w f hs hret] at h
      cases h
    by_cases hid : ((((f w.bus (read_frame ENS160_PART_ID 2) 3).1.rx.getD 2 0) <<< 8) |||
        ((f w.bus (read_frame ENS160_PART_ID 2) 3).1.rx.getD 1 0)) % 65536 = 0x0160
    swap
    · rw [init_wrong_identity w f hs hret hid] at h
      cases h
    rw [init_right_identity w f hs hret hid] at h ⊢
    by_cases hw : (f (f w.bus (read_frame ENS160_PART_ID 2) 3).2 [0x20, 0xF0] 2).1.ret = 0
    swap
    · have hf := reset_mode_write_fails
        { w with bus := (f w.bus (read_frame ENS160_PART_ID 2) 3).2,
                 trace := w.trace ++ [([0x01, 0x00, 0x00], 3)] } f hs hw
      rw [hf] at h
      simp at h
    have ha := reset_after_mode_write
      { w with bus := (f w.bus (read_frame ENS160_PART_ID 2) 3).2,
               trace := w.trace ++ [([0x01, 0x00, 0x00], 3)] } f hs hw
    dsimp only at ha
    rw [ha] at h ⊢
    obtain ⟨k, hk, hk1, htr⟩ := reset_poll_trace f 100
      { w with bus := (f (f w.bus (read_frame ENS160_PART_ID 2) 3).2 [0x20, 0xF0] 2).2,
               trace := (w.trace ++ [([0x01, 0x00, 0x00], 3)]) ++ [([0x20, 0xF0], 2)] } hs
    have hb2 := reset_poll_keeps_transfer f 100
      { w with bus := (f (f w.bus (read_frame ENS160_PART_ID 2) 3).2 [0x20, 0xF0] 2).2,
               trace := (w.trace ++ [([0x01, 0x00, 0x00], 3)]) ++ [([0x20, 0xF0], 2)] } hs
    split_ifs at h ⊢ with h1 h2
    refine ⟨k, hk1 (by simpa using h1), hk, ?_⟩
    rw [set_mode_bound _ f hb2 ENS160_OPMODE_IDLE]
    dsimp only at htr ⊢
    rw [htr]
    simp [ENS160_OPMODE_IDLE]

theorem init_success_trace_witness :
    ∃ k, 1 ≤ k ∧ k ≤ 100 ∧
      (ens160_init (⟨some healthy_sensor, (), []⟩ : Driver Unit)).2.trace =
        [] ++ ([0x01, 0x00, 0x00], 3) :: ([0x20, 0xF0], 2) ::
          (List.replicate k ([0x41, 0x00], 2) ++ [([0x20, 0x01], 2)]) :=
  init_success_trace ⟨some healthy_sensor, (), []⟩ (by decide)

/-- C16: with a transport bound, for every register address `a`, length `N` and
payload `p` of `N` bytes, a read makes exactly one transport call, with the header
byte `(a << 1) | 1` followed by `N` zero bytes and byte count `N + 1`, a write makes
exactly one, with the header byte `(a << 1) & 0xFE` followed by the bytes of `p` in
order and byte count `N + 1`; each returns `ENS160_ERROR` exactly when its call
returns non-zero and `ENS160_OK` exactly when it returns zero.  The header is the
byte stored in `tx_buffer[0]`; for a 7-bit address it is the shifted expression
itself. -/
theorem codec_single_exchange (w : Driver σ) (f : ens160_spi_transfer_t σ) (a N : Nat)
    (p : List Nat) (hb : w.spi_transfer = some f) (hp : p.length = N) :
    (ens160_read_register w a N).2.2.trace =
        w.trace ++ [(((a <<< 1) ||| 0x01) % 256 :: List.replicate N 0x00, N + 1)] ∧
      ((ens160_read_register w a N).1 = ENS160_ERROR ↔
        (f w.bus (((a <<< 1) ||| 0x01) % 256 :: List.replicate N 0x00) (N + 1)).1.ret ≠ 0) ∧
      ((ens160_read_register w a N).1 = ENS160_OK ↔
        (f w.bus (((a <<< 1) ||| 0x01) % 256 :: List.replicate N 0x00) (N + 1)).1.ret = 0) ∧
      (ens160_write_register w a p N).2.trace =
        w.trace ++ [(((a <<< 1) &&& 0xFE) % 256 :: p, N + 1)] ∧
      ((ens160_write_register w a p N).1 = ENS160_ERROR ↔
        (f w.bus (((a <<< 1) &&& 0xFE) % 256 :: p) (N + 1)).1.ret ≠ 0) ∧
      ((ens160_write_register w a p N).1 = ENS160_OK ↔
        (f w.bus (((a <<< 1) &&& 0xFE) % 256 :: p) (N + 1)).1.ret = 0) ∧
      (a ≤ 0x7F →
        ((a <<< 1) ||| 0x01) % 256 = (a <<< 1) ||| 0x01 ∧
        ((a <<< 1) &&& 0xFE) % 256 = (a <<< 1) &&& 0xFE) := by
  subst hp
  have hr := read_register_bound w f hb a p.length
  have hw := write_register_bound w f hb a p p.length
  rw [range_map_getD_self] at hw
  simp only [read_frame] at hr
  rw [hr, hw]
  refine ⟨?_, ?_, ?_, rfl, ?_, ?_, fun ha => headers_seven_bit a (by omega)⟩
  · split_ifs <;> rfl
  · split_ifs with h <;> simp_all
  · split_ifs with h <;> simp_all
  · split_ifs with h <;> simp_all
  · split_ifs with h <;> simp_all

theorem codec_single_exchange_witness :
    (ens160_read_register (⟨some (flaky_bus 1), 0, []⟩ : Driver Nat) 0x22 2).2.2.trace =
        [] ++ [(((0x22 <<< 1) ||| 0x01) % 256 :: List.replicate 2 0x00, 2 + 1)] ∧
      (ens160_read_register (⟨some (flaky_bus 1), 0, []⟩ : Driver Nat) 0x22 2).1 = ENS160_OK ∧
      (ens160_read_register (⟨some (flaky_bus 0), 0, []⟩ : Driver Nat) 0x22 2).1
        = ENS160_ERROR ∧
      (ens160_write_register (⟨some (flaky_bus 1), 0, []⟩ : Driver Nat) 0x22 [0xAB, 0xCD]
        2).2.trace = [] ++ [(((0x22 <<< 1) &&& 0xFE) % 256 :: [0xAB, 0xCD], 2 + 1)] ∧
      (ens160_write_register (⟨some (flaky_bus 1), 0, []⟩ : Driver Nat) 0x22 [0xAB, 0xCD]
        2).1 = ENS160_OK ∧
      (ens160_write_register (⟨some (flaky_bus 0), 0, []⟩ : Driver Nat) 0x22 [0xAB, 0xCD]
        2).1 = ENS160_ERROR ∧
      (((0x22 <<< 1) ||| 0x01) % 256 = (0x22 <<< 1) ||| 0x01 ∧
        ((0x22 <<< 1) &&& 0xFE) % 256 = (0x22 <<< 1) &&& 0xFE) :=
  ⟨(codec_single_exchange ⟨some (flaky_bus 1), 0, []⟩ (flaky_bus 1) 0x22 2 [0xAB, 0xCD] rfl
      rfl).1,
    (codec_single_exchange ⟨some (flaky_bus 1), 0, []⟩ (flaky_bus 1) 0x22 2 [0xAB, 0xCD] rfl
      rfl).2.2.1.2 (by decide),
    (codec_single_exchange ⟨some (flaky_bus 0), 0, []⟩ (flaky_bus 0) 0x22 2 [0xAB, 0xCD] rfl
      rfl).2.1.2 (by decide),
    (codec_single_exchange ⟨some (flaky_bus 1), 0, []⟩ (flaky_bus 1) 0x22 2 [0xAB, 0xCD] rfl
      rfl).2.2.2.1,
    (codec_single_exchange ⟨some (flaky_bus 1), 0, []⟩ (flaky_bus 1) 0x22 2 [0xAB, 0xCD] rfl
      rfl).2.2.2.2.2.1.2 (by decide),
    (codec_single_exchange ⟨some (flaky_bus 0), 0, []⟩ (flaky_bus 0) 0x22 2 [0xAB, 0xCD] rfl
      rfl).2.2.2.2.1.2 (by decide),
    (codec_single_exchange ⟨some (flaky_bus 1), 0, []⟩ (flaky_bus 1) 0x22 2 [0xAB, 0xCD] rfl
      rfl).2.2.2.2.2.2 (by decide)⟩

/-- C17: with a transport bound, when the identity read fails at the transport, or
succeeds and delivers bytes `lo`, `hi` with `lo + 256 * hi` other than `0x0160`,
`ens160_init` returns false and the identity read `[0x01, 0, 0]` is the only
exchange it makes: no write frame is sent. -/
theorem init_stops_at_identity (w : Driver σ) (f : ens160_spi_transfer_t σ) (lo hi : Nat)
    (hb : w.spi_transfer = some f) :
    ((f w.bus (read_frame ENS160_PART_ID 2) 3).1.ret ≠ 0 →
      (ens160_init w).1 = false ∧
      (ens160_init w).2.trace = w.trace ++ [([0x01, 0x00, 0x00], 3)]) ∧
    ((f w.bus (read_frame ENS160_PART_ID 2) 3).1.ret = 0 →
      (f w.bus (read_frame ENS160_PART_ID 2) 3).1.rx[1]? = some lo →
      (f w.bus (read_frame ENS160_PART_ID 2) 3).1.rx[2]? = some hi →
      lo < 256 → hi < 256 → lo + 256 * hi ≠ 0x0160 →
      (ens160_init w).1 = false ∧
      (ens160_init w).2.trace = w.trace ++ [([0x01, 0x00, 0x00], 3)]) := by
  constructor
  · intro hret
    rw [init_read_fails w f hb hret]
    exact ⟨rfl, rfl⟩
  · intro hret h1 h2 hlo hhi hne
    have hid : ((((f w.bus (read_frame ENS160_PART_ID 2) 3).1.rx.getD 2 0) <<< 8) |||
        ((f w.bus (read_frame ENS160_PART_ID 2) 3).1.rx.getD 1 0)) % 65536 ≠ 0x0160 := by
      rw [getD_of_getElem? _ _ _ h1, getD_of_getElem? _ _ _ h2, le16_decode lo hi hlo hhi]
      exact hne
    rw [init_wrong_identity w f hb hret hid]
    exact ⟨rfl, rfl⟩

theorem init_stops_at_identity_witness :
    ((ens160_init (⟨some dead_bus, (), []⟩ : Driver Unit)).1 = false ∧
      (ens160_init (⟨some dead_bus, (), []⟩ : Driver Unit)).2.trace =
        [] ++ [([0x01, 0x00, 0x00], 3)]) ∧
    ((ens160_init (⟨some (constant_transport ⟨0, [0x00, 0x61, 0x01]⟩), (), []⟩ :
        Driver Unit)).1 = false ∧
      (ens160_init (⟨some (constant_transport ⟨0, [0x00, 0x61, 0x01]⟩), (), []⟩ :
        Driver Unit)).2.trace = [] ++ [([0x01, 0x00, 0x00], 3)]) :=
  ⟨(init_stops_at_identity ⟨some dead_bus, (), []⟩ dead_bus 0 0 rfl).1 (by decide),
    (init_stops_at_identity _ (constant_transport ⟨0, [0x00, 0x61, 0x01]⟩) 0x61 0x01 rfl).2
      (by decide) (by decide) (by decide) (by decide) (by decide) (by decide)⟩

/-- C19: with a transport bound, if the exchange of the temperature frame fails,
`ens160_write_compensation` returns `ENS160_ERROR` having made that one exchange
and no other: the humidity frame is not handed to the transport. -/
theorem write_compensation_stops_early (w : Driver σ) (f : ens160_spi_transfer_t σ)
    (temp rh : Nat) (hb : w.spi_transfer = some f)
    (hfail : (f w.bus (temp_frame temp) 3).1.ret ≠ 0) :
    (ens160_write_compensation w temp rh).1 = ENS160_ERROR ∧
      (ens160_write_compensation w temp rh).2.trace = w.trace ++ [(temp_frame temp, 3)] ∧
      (ens160_write_compensation w temp rh).2.bus = (f w.bus (temp_frame temp) 3).2 ∧
      (rh_frame rh, 3) ∉
        (ens160_write_compensation w temp rh).2.trace.drop w.trace.length := by
  rw [write_compensation_bound w f hb, if_pos hfail]
  refine ⟨rfl, rfl, rfl, ?_⟩
  simp [temp_frame, rh_frame]

theorem write_compensation_stops_early_witness :
    (ens160_write_compensation (⟨some dead_bus, (), []⟩ : Driver Unit) 0x4A89 0x6400).1
        = ENS160_ERROR ∧
      (ens160_write_compensation (⟨some dead_bus, (), []⟩ : Driver Unit) 0x4A89 0x6400).2.trace
        = [] ++ [(temp_frame 0x4A89, 3)] ∧
      (ens160_write_compensation (⟨some dead_bus, (), []⟩ : Driver Unit) 0x4A89 0x6400).2.bus
        = (dead_bus () (temp_frame 0x4A89) 3).2 ∧
      (rh_frame 0x6400, 3) ∉
        (ens160_write_compensation (⟨some dead_bus, (), []⟩ : Driver Unit) 0x4A89
          0x6400).2.trace.drop ([] : List (List Nat × Nat)).length :=
  write_compensation_stops_early ⟨some dead_bus, (), []⟩ dead_bus 0x4A89 0x6400 rfl
    (by decide)

/-- C20: `getCO2Level` is defined on every eCO2 value, its result never decreases as
eCO2 grows, and the thresholds are inclusive above: `EXCELLENT` exactly up to 600,
`GOOD` exactly in 601 .. 800, `MODERATE` exactly in 801 .. 1000, `BAD` exactly in
1001 .. 1500 and `TERRIBLE` exactly above 1500. -/
theorem getCO2Level_thresholds (eco2 eco2' : Nat) :
    (getCO2Level eco2 = CO2_Level.EXCELLENT ↔ eco2 ≤ 600) ∧
      (getCO2Level eco2 = CO2_Level.GOOD ↔ 600 < eco2 ∧ eco2 ≤ 800) ∧
      (getCO2Level eco2 = CO2_Level.MODERATE ↔ 800 < eco2 ∧ eco2 ≤ 1000) ∧
      (getCO2Level eco2 = CO2_Level.BAD ↔ 1000 < eco2 ∧ eco2 ≤ 1500) ∧
      (getCO2Level eco2 = CO2_Level.TERRIBLE ↔ 1500 < eco2) ∧
      (eco2 ≤ eco2' → (getCO2Level eco2).val ≤ (getCO2Level eco2').val) := by
  simp only [getCO2Level, CO2_EXCELLENT, CO2_GOOD, CO2_MODERATE, CO2_BAD]
  refine ⟨?_, ?_, ?_, ?_, ?_, ?_⟩
  · split_ifs <;> simp <;> omega
  · split_ifs <;> simp <;> omega
  · split_ifs <;> simp <;> omega
  · split_ifs <;> simp <;> omega
  · split_ifs <;> simp <;> omega
  · intro hle
    split_ifs <;> simp [CO2_Level.val] <;> omega

theorem getCO2Level_thresholds_witness :
    (getCO2Level 600 = CO2_Level.EXCELLENT ↔ 600 ≤ 600) ∧
      (getCO2Level 600 = CO2_Level.GOOD ↔ 600 < 600 ∧ 600 ≤ 800) ∧
      (getCO2Level 600 = CO2_Level.MODERATE ↔ 800 < 600 ∧ 600 ≤ 1000) ∧
      (getCO2Level 600 = CO2_Level.BAD ↔ 1000 < 600 ∧ 600 ≤ 1500) ∧
      (getCO2Level 600 = CO2_Level.TERRIBLE ↔ 1500 < 600) ∧
      (getCO2Level 600).val ≤ (getCO2Level 601).val :=
  ⟨(getCO2Level_thresholds 600 601).1, (getCO2Level_thresholds 600 601).2.1,
    (getCO2Level_thresholds 600 601).2.2.1, (getCO2Level_thresholds 600 601).2.2.2.1,
    (getCO2Level_thresholds 600 601).2.2.2.2.1,
    (getCO2Level_thresholds 600 601).2.2.2.2.2 (by decide)⟩

end ENS160
